import Mathlib

/-!
Verification of the cyme USB profiler core against its natural-language
specification.  The development shallowly embeds the relevant Rust code:

* `src/usb/descriptors/audio.rs` — the UAC (USB Audio Class) typed
  descriptor decoders/encoders, the protocol-dependent subtype remap and
  the class-context dispatch;
* `src/profiler.rs` — the chunked "extra descriptor" reader, the device
  topology assembler (`get_spusb`) and the profile merge (`fill_spusb`).

Bytes are modelled as `Nat` values (kept below 256 where it matters, with
explicit `% 256` truncation where the Rust code truncates).  Fallible Rust
code returns `PResult`, which distinguishes a recoverable `Error` from a
Rust panic (out-of-bounds indexing, `expect`, `drain` past the end), so
that panic-freedom claims are expressible.

Types that live in repository files outside `src/` (`usb` module root,
`profiler/types.rs`, `error.rs`) are modelled from the specification; each
such definition carries a doc comment starting with `Modelled from the
spec:`.
-/

namespace Cyme

/-- Error kinds used by the embedded decoders.  `error.rs` is not part of
the sources; the kinds are those constructed in `audio.rs` and
`profiler.rs` (`Error::new_descriptor_len`, `ErrorKind::InvalidDescriptor`,
`ErrorKind::InvalidArg`). -/
inductive ErrorKind where
  | invalidArg
  | invalidDescriptor
  | invalidDescriptorLength
  deriving DecidableEq, Repr

/-- Modelled from the spec: the failure value `DescriptorTooShort
(descriptor_name, expected, actual)` plus the message-only errors built
with `Error::new` in the sources. -/
structure Error where
  kind : ErrorKind
  message : String
  expected : Nat := 0
  actual : Nat := 0
  deriving DecidableEq, Repr

/-- `Error::new_descriptor_len(name, expected, actual)`. -/
def Error.newDescriptorLen (name : String) (expected actual : Nat) : Error :=
  { kind := .invalidDescriptorLength, message := name, expected := expected, actual := actual }

/-- `Error::new(kind, message)`. -/
def Error.new (kind : ErrorKind) (message : String) : Error :=
  { kind := kind, message := message }

/-- Outcome of running embedded Rust code: success, a recoverable
`Result::Err`, or a Rust panic (index/slice out of bounds, `expect`). -/
inductive PResult (α : Type) where
  | ok (val : α)
  | error (e : Error)
  | panic (msg : String)
  deriving Repr, DecidableEq

namespace PResult

/-- Rust `?` / `map` plumbing: errors and panics propagate. -/
def bind {α β : Type} : PResult α → (α → PResult β) → PResult β
  | ok a, f => f a
  | error e, _ => error e
  | panic m, _ => panic m

instance : Monad PResult where
  pure := ok
  bind := bind

/-- `Result::map`. -/
def map {α β : Type} (f : α → β) : PResult α → PResult β
  | ok a => ok (f a)
  | error e => error e
  | panic m => panic m

/-- Is the outcome a recoverable error? -/
def isError {α : Type} : PResult α → Bool
  | error _ => true
  | _ => false

/-- Is the outcome a Rust panic? -/
def isPanic {α : Type} : PResult α → Bool
  | panic _ => true
  | _ => false

/-- Is the outcome a success? -/
def isOk {α : Type} : PResult α → Bool
  | ok _ => true
  | _ => false

end PResult

/-- Rust slice indexing `value[i]` on a `&[u8]`: the byte, or a panic when
out of bounds. -/
def readAt (value : List Nat) (i : Nat) : PResult Nat :=
  match value.get? i with
  | some b => .ok b
  | none => .panic "index out of bounds"

/-- Rust slice `&value[a..b]`: panics unless `a ≤ b ≤ value.len()`. -/
def sliceRange (value : List Nat) (a b : Nat) : PResult (List Nat) :=
  if a ≤ b ∧ b ≤ value.length then .ok ((value.drop a).take (b - a))
  else .panic "slice index out of range"

/-- Rust slice `&value[a..]`: panics unless `a ≤ value.len()`. -/
def sliceFrom (value : List Nat) (a : Nat) : PResult (List Nat) :=
  if a ≤ value.length then .ok (value.drop a) else .panic "slice index out of range"

/-- `u16::from_le_bytes([b0, b1])`. -/
def u16le (b0 b1 : Nat) : Nat := b0 + 256 * b1

/-- `u32::from_le_bytes([b0, b1, b2, b3])`. -/
def u32le (b0 b1 b2 b3 : Nat) : Nat := b0 + 256 * b1 + 65536 * b2 + 16777216 * b3

/-- `u64::from_le_bytes` for the eight bytes. -/
def u64le (b0 b1 b2 b3 b4 b5 b6 b7 : Nat) : Nat :=
  u32le b0 b1 b2 b3 + 4294967296 * u32le b4 b5 b6 b7

/-- `u16::to_le_bytes`. -/
def toLe16 (n : Nat) : List Nat := [n % 256, n / 256 % 256]

/-- `u32::to_le_bytes`. -/
def toLe32 (n : Nat) : List Nat :=
  [n % 256, n / 256 % 256, n / 65536 % 256, n / 16777216 % 256]

/-- `u64::to_le_bytes`. -/
def toLe64 (n : Nat) : List Nat :=
  toLe32 (n % 4294967296) ++ toLe32 (n / 4294967296 % 4294967296)

/-- `slice::chunks_exact(2)` paired up; the trailing partial chunk (if any)
is dropped, as in Rust. -/
def chunksExact2 : List Nat → List (Nat × Nat)
  | a :: b :: rest => (a, b) :: chunksExact2 rest
  | _ => []

/-- Indices produced by Rust `(start..stop).step_by(step)` for `step > 0`. -/
def stepIndices (start stop step : Nat) : List Nat :=
  (List.range ((stop - start + step - 1) / step)).map (fun k => start + k * step)

/-- Read `width` bytes starting at `i` as a little-endian number, one
indexing operation per byte (so an out-of-bounds byte read panics exactly
as `value[i + j]` does). -/
def readWordLe (value : List Nat) (i : Nat) : Nat → PResult Nat
  | 0 => .ok 0
  | w + 1 =>
    PResult.bind (readAt value i) fun b =>
      PResult.bind (readWordLe value (i + 1) w) fun rest =>
        .ok (b + 256 * rest)

/-- Map `readWordLe` across an index list (the body of the Rust
`(a..b).step_by(s).map(|i| ...from_le_bytes...)` loops). -/
def readWordsLe (value : List Nat) (width : Nat) : List Nat → PResult (List Nat)
  | [] => .ok []
  | i :: is =>
    PResult.bind (readWordLe value i width) fun w =>
      PResult.bind (readWordsLe value width is) fun ws => .ok (w :: ws)

/-! ## Audio class enums (`audio.rs`) -/

/-- `MidiSubtype`: bSubtype for MIDI interface descriptors. -/
inductive MidiSubtype where
  | Undefined
  | Header
  | InputJack
  | OutputJack
  | Element
  deriving DecidableEq, Repr

/-- `impl From<u8> for MidiSubtype`. -/
def MidiSubtype.fromU8 (b : Nat) : MidiSubtype :=
  match b with
  | 0x00 => .Undefined
  | 0x01 => .Header
  | 0x02 => .InputJack
  | 0x03 => .OutputJack
  | 0x04 => .Element
  | _ => .Undefined

/-- `impl From<MidiSubtype> for u8` (the `repr(u8)` discriminants). -/
def MidiSubtype.toU8 : MidiSubtype → Nat
  | .Undefined => 0x00
  | .Header => 0x01
  | .InputJack => 0x02
  | .OutputJack => 0x03
  | .Element => 0x04

/-- `ControlSubtype`: UAC Audio Control types based on bDescriptorSubtype. -/
inductive ControlSubtype where
  | Undefined
  | Header
  | InputTerminal
  | OutputTerminal
  | ExtendedTerminal
  | MixerUnit
  | SelectorUnit
  | FeatureUnit
  | EffectUnit
  | ProcessingUnit
  | ExtensionUnit
  | ClockSource
  | ClockSelector
  | ClockMultiplier
  | SampleRateConverter
  | Connectors
  | PowerDomain
  deriving DecidableEq, Repr

/-- `impl From<u8> for ControlSubtype`. -/
def ControlSubtype.fromU8 (b : Nat) : ControlSubtype :=
  match b with
  | 0x00 => .Undefined
  | 0x01 => .Header
  | 0x02 => .InputTerminal
  | 0x03 => .OutputTerminal
  | 0x04 => .ExtendedTerminal
  | 0x05 => .MixerUnit
  | 0x06 => .SelectorUnit
  | 0x07 => .FeatureUnit
  | 0x08 => .EffectUnit
  | 0x09 => .ProcessingUnit
  | 0x0a => .ExtensionUnit
  | 0x0b => .ClockSource
  | 0x0c => .ClockSelector
  | 0x0d => .ClockMultiplier
  | 0x0e => .SampleRateConverter
  | 0x0f => .Connectors
  | 0x10 => .PowerDomain
  | _ => .Undefined

/-- The `repr(u8)` discriminants of `ControlSubtype` (used by
`impl From<UacType> for u8`). -/
def ControlSubtype.toU8 : ControlSubtype → Nat
  | .Undefined => 0x00
  | .Header => 0x01
  | .InputTerminal => 0x02
  | .OutputTerminal => 0x03
  | .ExtendedTerminal => 0x04
  | .MixerUnit => 0x05
  | .SelectorUnit => 0x06
  | .FeatureUnit => 0x07
  | .EffectUnit => 0x08
  | .ProcessingUnit => 0x09
  | .ExtensionUnit => 0x0a
  | .ClockSource => 0x0b
  | .ClockSelector => 0x0c
  | .ClockMultiplier => 0x0d
  | .SampleRateConverter => 0x0e
  | .Connectors => 0x0f
  | .PowerDomain => 0x10

/-- `ControlSubtype::get_uac_subtype`: UAC1, UAC2, and UAC3 define
bDescriptorSubtype differently for the AudioControl interface, so the
subtype byte is remapped through a protocol-specific table before the
type-specific decode. -/
def ControlSubtype.getUacSubtype (subtype protocol : Nat) : ControlSubtype :=
  match protocol with
  | 0x00 =>
    match subtype with
    | 0x04 => .MixerUnit
    | 0x05 => .SelectorUnit
    | 0x06 => .FeatureUnit
    | 0x07 => .ProcessingUnit
    | 0x08 => .ExtensionUnit
    | _ => ControlSubtype.fromU8 subtype
  | 0x20 =>
    match subtype with
    | 0x04 => .MixerUnit
    | 0x05 => .SelectorUnit
    | 0x06 => .FeatureUnit
    | 0x07 => .EffectUnit
    | 0x08 => .ProcessingUnit
    | 0x09 => .ExtensionUnit
    | 0x0a => .ClockSource
    | 0x0b => .ClockSelector
    | 0x0c => .ClockMultiplier
    | 0x0d => .SampleRateConverter
    | _ => ControlSubtype.fromU8 subtype
  | _ => ControlSubtype.fromU8 subtype

/-- `StreamingSubtype`: UAC Audio Streaming types based on
bDescriptorSubtype. -/
inductive StreamingSubtype where
  | Undefined
  | General
  | FormatType
  | FormatSpecific
  deriving DecidableEq, Repr

/-- `impl From<u8> for StreamingSubtype`. -/
def StreamingSubtype.fromU8 (b : Nat) : StreamingSubtype :=
  match b with
  | 0x00 => .Undefined
  | 0x01 => .General
  | 0x02 => .FormatType
  | 0x03 => .FormatSpecific
  | _ => .Undefined

/-- The `repr(u8)` discriminants of `StreamingSubtype`. -/
def StreamingSubtype.toU8 : StreamingSubtype → Nat
  | .Undefined => 0x00
  | .General => 0x01
  | .FormatType => 0x02
  | .FormatSpecific => 0x03

/-- `UacProtocol`: the UAC protocol byte (UAC1 = 0x00, UAC2 = 0x20,
UAC3 = 0x30). -/
inductive UacProtocol where
  | Uac1
  | Uac2
  | Uac3
  | Unknown (b : Nat)
  deriving DecidableEq, Repr

/-- `impl From<u8> for UacProtocol`. -/
def UacProtocol.fromU8 (b : Nat) : UacProtocol :=
  match b with
  | 0x00 => .Uac1
  | 0x20 => .Uac2
  | 0x30 => .Uac3
  | b => .Unknown b

/-- `StreamingFormatType` based on the first format byte. -/
inductive StreamingFormatType where
  | TypeI
  | TypeII
  | TypeIII
  | TypeIV
  | Undefined (b : Nat)
  deriving DecidableEq, Repr

/-- `impl From<u8> for StreamingFormatType`. -/
def StreamingFormatType.fromU8 (b : Nat) : StreamingFormatType :=
  match b with
  | 0x01 => .TypeI
  | 0x02 => .TypeII
  | 0x03 => .TypeIII
  | 0x04 => .TypeIV
  | b => .Undefined b

/-- `impl From<StreamingFormatType> for u8`. -/
def StreamingFormatType.toU8 : StreamingFormatType → Nat
  | .TypeI => 0x01
  | .TypeII => 0x02
  | .TypeIII => 0x03
  | .TypeIV => 0x04
  | .Undefined b => b

/-- `SampleFrequencyType`: continuous (0) or a discrete count. -/
inductive SampleFrequencyType where
  | Continuous
  | Discrete (b : Nat)
  deriving DecidableEq, Repr

/-- `impl From<u8> for SampleFrequencyType`. -/
def SampleFrequencyType.fromU8 (b : Nat) : SampleFrequencyType :=
  match b with
  | 0x00 => .Continuous
  | b => .Discrete b

/-- `impl From<SampleFrequencyType> for u8`. -/
def SampleFrequencyType.toU8 : SampleFrequencyType → Nat
  | .Continuous => 0x00
  | .Discrete b => b

/-- `UacType`: the UAC subtype tagged by sub-class family. -/
inductive UacType where
  | Control (s : ControlSubtype)
  | Streaming (s : StreamingSubtype)
  | Midi (s : MidiSubtype)
  deriving DecidableEq, Repr

/-- `impl TryFrom<(u8, u8, u8)> for UacType`: from (SubClass,
DescriptorSub, Protocol). -/
def UacType.tryFrom (sub_class descriptor_sub protocol : Nat) : PResult UacType :=
  match sub_class with
  | 1 => .ok (.Control (ControlSubtype.getUacSubtype descriptor_sub protocol))
  | 2 => .ok (.Streaming (StreamingSubtype.fromU8 descriptor_sub))
  | 3 => .ok (.Midi (MidiSubtype.fromU8 descriptor_sub))
  | _ => .error (Error.new .invalidArg "Invalid UAC subtype")

/-- `impl From<UacType> for u8`. -/
def UacType.toU8 : UacType → Nat
  | .Control s => s.toU8
  | .Streaming s => s.toU8
  | .Midi s => s.toU8

/-! ## Typed descriptor shapes (`audio.rs`) -/

/-- Modelled from the spec: `usb::Version` (binary-coded-decimal version
split into major, minor and sub-minor digits), used by the header
descriptors; `Version` lives in the `usb` module root, outside `src/`. -/
structure Version where
  major : Nat
  minor : Nat
  sub_minor : Nat
  deriving DecidableEq, Repr

/-- Modelled from the spec: `Version::from_bcd`. -/
def Version.fromBcd (raw : Nat) : Version :=
  { major := raw / 256, minor := raw % 256 / 16, sub_minor := raw % 16 }

/-- Modelled from the spec: `u16::from(Version)`. -/
def Version.toU16 (v : Version) : Nat := v.major * 256 + v.minor * 16 + v.sub_minor

/-- MIDI `Header` descriptor body. -/
structure Header where
  version : Version
  total_length : Nat
  deriving DecidableEq, Repr

/-- `impl TryFrom<&[u8]> for Header`. -/
def Header.tryFrom (value : List Nat) : PResult Header :=
  if value.length < 4 then .error (Error.newDescriptorLen "Header" 4 value.length)
  else
    PResult.bind (readWordLe value 0 2) fun vbcd =>
    PResult.bind (readWordLe value 2 2) fun total =>
      .ok { version := Version.fromBcd vbcd, total_length := total }

/-- `impl From<Header> for Vec<u8>`. -/
def Header.into (h : Header) : List Nat :=
  toLe16 h.version.toU16 ++ toLe16 h.total_length

/-- MIDI `InputJack` descriptor body. -/
structure InputJack where
  jack_type : Nat
  jack_id : Nat
  jack_string_index : Nat
  jack_string : Option String
  deriving DecidableEq, Repr

/-- `impl TryFrom<&[u8]> for InputJack`. -/
def InputJack.tryFrom (value : List Nat) : PResult InputJack :=
  if value.length < 3 then .error (Error.newDescriptorLen "InputJack" 3 value.length)
  else
    PResult.bind (readAt value 0) fun b0 =>
    PResult.bind (readAt value 1) fun b1 =>
    PResult.bind (readAt value 2) fun b2 =>
      .ok { jack_type := b0, jack_id := b1, jack_string_index := b2, jack_string := none }

/-- `impl From<InputJack> for Vec<u8>`. -/
def InputJack.into (ij : InputJack) : List Nat :=
  [ij.jack_type, ij.jack_id, ij.jack_string_index]

/-- MIDI `OutputJack` descriptor body: a variable-length shape whose
source-pin pair list length is given by byte 2. -/
structure OutputJack where
  jack_type : Nat
  jack_id : Nat
  num_input_pins : Nat
  source_ids : List (Nat × Nat)
  jack_string_index : Nat
  jack_string : Option String
  deriving DecidableEq, Repr

/-- `impl TryFrom<&[u8]> for OutputJack`. -/
def OutputJack.tryFrom (value : List Nat) : PResult OutputJack :=
  if value.length < 4 then .error (Error.newDescriptorLen "OutputJack" 4 value.length)
  else
    PResult.bind (readAt value 2) fun b2 =>
      let num_input_pins := b2
      -- + 1 for the jack_string_index
      if value.length < 3 + num_input_pins * 2 + 1 then
        .error (Error.new .invalidDescriptor
          "OutputJack descriptor reported number of source pins too long for buffer")
      else
        PResult.bind (sliceRange value 3 (3 + num_input_pins * 2)) fun seg =>
          let source_ids := chunksExact2 seg
          PResult.bind (readAt value 0) fun b0 =>
          PResult.bind (readAt value 1) fun b1 =>
          PResult.bind (readAt value (3 + num_input_pins * 2)) fun bidx =>
            .ok { jack_type := b0, jack_id := b1, num_input_pins := b2,
                  source_ids := source_ids, jack_string_index := bidx, jack_string := none }

/-- `impl From<OutputJack> for Vec<u8>`. -/
def OutputJack.into (oj : OutputJack) : List Nat :=
  [oj.jack_type, oj.jack_id, oj.num_input_pins]
    ++ (oj.source_ids.map fun p => [p.1, p.2]).flatten
    ++ [oj.jack_string_index]

/-- MIDI `Element` descriptor body: two data-dependent variable-length
regions (source-pin pairs, then a caps region whose size byte sits after
the pins). -/
structure Element where
  element_id : Nat
  num_input_pins : Nat
  source_ids : List (Nat × Nat)
  num_output_pins : Nat
  in_terminal_link : Nat
  out_terminal_link : Nat
  el_caps_size : Nat
  element_caps : Nat
  element_string_index : Nat
  element_string : Option String
  deriving DecidableEq, Repr

/-- The `for i in 0..capsize` accumulation of `element_caps` from
`Element::try_from` (`element_caps |= value[base + i] << (i * 8)`). -/
def Element.capsLoop (value : List Nat) (base : Nat) : Nat → Nat → Nat → PResult Nat
  | 0, _, acc => .ok acc
  | n + 1, i, acc =>
    PResult.bind (readAt value (base + i)) fun b =>
      Element.capsLoop value base n (i + 1) (acc ||| (b <<< (i * 8)))

/-- `impl TryFrom<&[u8]> for Element`. -/
def Element.tryFrom (value : List Nat) : PResult Element :=
  if value.length < 8 then .error (Error.newDescriptorLen "Element" 8 value.length)
  else
    PResult.bind (readAt value 0) fun element_id =>
    PResult.bind (readAt value 1) fun b1 =>
      let num_input_pins := b1
      let expected_len := 6 + 2 * num_input_pins
      if value.length < expected_len then
        .error (Error.new .invalidDescriptor
          "Element descriptor reported number of input pins too long for buffer")
      else
        PResult.bind (sliceRange value 2 (2 + num_input_pins * 2)) fun seg =>
          let source_ids := chunksExact2 seg
          let j := 2 + num_input_pins * 2
          PResult.bind (readAt value j) fun num_output_pins =>
          PResult.bind (readAt value (j + 1)) fun in_terminal_link =>
          PResult.bind (readAt value (j + 2)) fun out_terminal_link =>
          PResult.bind (readAt value (j + 3)) fun el_caps_size =>
            let capsize := el_caps_size
            if value.length < j + 4 + capsize + 1 then
              .error (Error.new .invalidDescriptor
                "Element descriptor reported caps size too long for buffer")
            else
              PResult.bind (Element.capsLoop value (j + 4) capsize 0 0) fun element_caps =>
              PResult.bind (readAt value (j + 4 + capsize)) fun element_string_index =>
                .ok { element_id := element_id, num_input_pins := b1,
                      source_ids := source_ids, num_output_pins := num_output_pins,
                      in_terminal_link := in_terminal_link,
                      out_terminal_link := out_terminal_link,
                      el_caps_size := el_caps_size, element_caps := element_caps,
                      element_string_index := element_string_index,
                      element_string := none }

/-- `impl From<Element> for Vec<u8>`. -/
def Element.into (el : Element) : List Nat :=
  [el.element_id, el.num_input_pins]
    ++ (el.source_ids.map fun p => [p.1, p.2]).flatten
    ++ [el.num_output_pins, el.in_terminal_link, el.out_terminal_link, el.el_caps_size]
    ++ ((List.range el.el_caps_size).map fun i => (el.element_caps >>> (i * 8)) % 256)
    ++ [el.element_string_index]

/-- MIDI `MidiEndpointDescriptor` body. -/
structure MidiEndpointDescriptor where
  num_jacks : Nat
  jacks : List Nat
  deriving DecidableEq, Repr

/-- `impl TryFrom<&[u8]> for MidiEndpointDescriptor`. -/
def MidiEndpointDescriptor.tryFrom (value : List Nat) : PResult MidiEndpointDescriptor :=
  if value.length = 0 then .error (Error.newDescriptorLen "MidiEndpointDescriptor" 1 0)
  else
    PResult.bind (readAt value 0) fun b0 =>
      let num_jacks := b0
      if value.length < 1 + num_jacks then
        .error (Error.new .invalidDescriptor
          "MidiEndpointDescriptor descriptor reported number of jacks too long for buffer")
      else
        PResult.bind (sliceRange value 1 (1 + num_jacks)) fun jacks =>
          .ok { num_jacks := b0, jacks := jacks }

/-- `impl From<MidiEndpointDescriptor> for Vec<u8>`. -/
def MidiEndpointDescriptor.into (md : MidiEndpointDescriptor) : List Nat :=
  md.num_jacks :: md.jacks

/-- UAC1: 4.3.2 Class-Specific AC Interface Descriptor (`Header1`). -/
structure Header1 where
  version : Version
  total_length : Nat
  collection_bytes : Nat
  interfaces : List Nat
  deriving DecidableEq, Repr

/-- `impl TryFrom<&[u8]> for Header1`. -/
def Header1.tryFrom (value : List Nat) : PResult Header1 :=
  if value.length < 6 then .error (Error.newDescriptorLen "Header1" 6 value.length)
  else
    PResult.bind (readWordLe value 2 2) fun total_length =>
    PResult.bind (readAt value 4) fun collection_bytes =>
    PResult.bind (sliceFrom value 5) fun interfaces =>
    PResult.bind (readWordLe value 0 2) fun vbcd =>
      .ok { version := Version.fromBcd vbcd, total_length := total_length,
            collection_bytes := collection_bytes, interfaces := interfaces }

/-- `impl From<Header1> for Vec<u8>`. -/
def Header1.into (val : Header1) : List Nat :=
  toLe16 val.version.toU16 ++ toLe16 val.total_length
    ++ [val.collection_bytes] ++ val.interfaces

/-- UAC2: 4.7.2 Class-Specific AC Interface Descriptor (`Header2`). -/
structure Header2 where
  version : Version
  category : Nat
  total_length : Nat
  controls : Nat
  deriving DecidableEq, Repr

/-- `impl TryFrom<&[u8]> for Header2`. -/
def Header2.tryFrom (value : List Nat) : PResult Header2 :=
  if value.length < 6 then .error (Error.newDescriptorLen "Header2" 6 value.length)
  else
    PResult.bind (readWordLe value 3 2) fun total_length =>
    PResult.bind (readAt value 5) fun controls =>
    PResult.bind (readWordLe value 0 2) fun vbcd =>
    PResult.bind (readAt value 2) fun category =>
      .ok { version := Version.fromBcd vbcd, category := category,
            total_length := total_length, controls := controls }

/-- `impl From<Header2> for Vec<u8>`. -/
def Header2.into (val : Header2) : List Nat :=
  toLe16 val.version.toU16 ++ [val.category] ++ toLe16 val.total_length ++ [val.controls]

/-- UAC3: 4.5.2 Class-Specific AC Interface Descriptor (`Header3`). -/
structure Header3 where
  category : Nat
  total_length : Nat
  controls : Nat
  deriving DecidableEq, Repr

/-- `impl TryFrom<&[u8]> for Header3`. -/
def Header3.tryFrom (value : List Nat) : PResult Header3 :=
  if value.length < 7 then .error (Error.newDescriptorLen "Header3" 7 value.length)
  else
    PResult.bind (readWordLe value 1 2) fun total_length =>
    PResult.bind (readWordLe value 3 4) fun controls =>
    PResult.bind (readAt value 0) fun category =>
      .ok { category := category, total_length := total_length, controls := controls }

/-- `impl From<Header3> for Vec<u8>`. -/
def Header3.into (val : Header3) : List Nat :=
  val.category :: (toLe16 val.total_length ++ toLe32 val.controls)

/-- UAC1: 4.3.2.1 Input Terminal Descriptor (`InputTerminal1`). -/
structure InputTerminal1 where
  terminal_id : Nat
  terminal_type : Nat
  assoc_terminal : Nat
  nr_channels : Nat
  channel_config : Nat
  channel_names_index : Nat
  channel_names : Option String
  terminal_index : Nat
  terminal : Option String
  deriving DecidableEq, Repr

/-- `impl TryFrom<&[u8]> for InputTerminal1`. -/
def InputTerminal1.tryFrom (value : List Nat) : PResult InputTerminal1 :=
  if value.length < 9 then .error (Error.newDescriptorLen "InputTerminal1" 9 value.length)
  else
    PResult.bind (readAt value 0) fun terminal_id =>
    PResult.bind (readWordLe value 1 2) fun terminal_type =>
    PResult.bind (readAt value 3) fun assoc_terminal =>
    PResult.bind (readAt value 4) fun nr_channels =>
    PResult.bind (readWordLe value 5 2) fun channel_config =>
    PResult.bind (readAt value 7) fun channel_names_index =>
    PResult.bind (readAt value 8) fun terminal_index =>
      .ok { terminal_id := terminal_id, terminal_type := terminal_type,
            assoc_terminal := assoc_terminal, nr_channels := nr_channels,
            channel_config := channel_config, channel_names_index := channel_names_index,
            channel_names := none, terminal_index := terminal_index, terminal := none }

/-- `impl From<InputTerminal1> for Vec<u8>`. -/
def InputTerminal1.into (val : InputTerminal1) : List Nat :=
  val.terminal_id :: (toLe16 val.terminal_type
    ++ [val.assoc_terminal, val.nr_channels]
    ++ toLe16 val.channel_config
    ++ [val.channel_names_index, val.terminal_index])

/-- UAC2: 4.7.2.4 Input Terminal Descriptor (`InputTerminal2`). -/
structure InputTerminal2 where
  terminal_id : Nat
  terminal_type : Nat
  assoc_terminal : Nat
  csource_id : Nat
  nr_channels : Nat
  channel_config : Nat
  channel_names_index : Nat
  channel_names : Option String
  controls : Nat
  terminal_index : Nat
  terminal : Option String
  deriving DecidableEq, Repr

/-- `impl TryFrom<&[u8]> for InputTerminal2`. -/
def InputTerminal2.tryFrom (value : List Nat) : PResult InputTerminal2 :=
  if value.length < 14 then .error (Error.newDescriptorLen "InputTerminal2" 14 value.length)
  else
    PResult.bind (readAt value 0) fun terminal_id =>
    PResult.bind (readWordLe value 1 2) fun terminal_type =>
    PResult.bind (readAt value 3) fun assoc_terminal =>
    PResult.bind (readAt value 4) fun csource_id =>
    PResult.bind (readAt value 5) fun nr_channels =>
    PResult.bind (readWordLe value 6 4) fun channel_config =>
    PResult.bind (readAt value 10) fun channel_names_index =>
    PResult.bind (readWordLe value 11 2) fun controls =>
    PResult.bind (readAt value 13) fun terminal_index =>
      .ok { terminal_id := terminal_id, terminal_type := terminal_type,
            assoc_terminal := assoc_terminal, csource_id := csource_id,
            nr_channels := nr_channels, channel_config := channel_config,
            channel_names_index := channel_names_index, channel_names := none,
            controls := controls, terminal_index := terminal_index, terminal := none }

/-- `impl From<InputTerminal2> for Vec<u8>`. -/
def InputTerminal2.into (val : InputTerminal2) : List Nat :=
  val.terminal_id :: (toLe16 val.terminal_type
    ++ [val.assoc_terminal, val.csource_id, val.nr_channels]
    ++ toLe32 val.channel_config
    ++ [val.channel_names_index]
    ++ toLe16 val.controls
    ++ [val.terminal_index])

/-- UAC3: 4.5.2.1 Input Terminal Descriptor (`InputTerminal3`). -/
structure InputTerminal3 where
  terminal_id : Nat
  terminal_type : Nat
  assoc_terminal : Nat
  csource_id : Nat
  controls : Nat
  cluster_descr_id : Nat
  ex_terminal_descr_id : Nat
  connectors_descr_id : Nat
  terminal_descr_str : Nat
  deriving DecidableEq, Repr

/-- `impl TryFrom<&[u8]> for InputTerminal3`. -/
def InputTerminal3.tryFrom (value : List Nat) : PResult InputTerminal3 :=
  if value.length < 17 then .error (Error.newDescriptorLen "InputTerminal3" 17 value.length)
  else
    PResult.bind (readAt value 0) fun terminal_id =>
    PResult.bind (readWordLe value 1 2) fun terminal_type =>
    PResult.bind (readAt value 3) fun assoc_terminal =>
    PResult.bind (readAt value 4) fun csource_id =>
    PResult.bind (readWordLe value 5 4) fun controls =>
    PResult.bind (readWordLe value 9 2) fun cluster_descr_id =>
    PResult.bind (readWordLe value 11 2) fun ex_terminal_descr_id =>
    PResult.bind (readWordLe value 13 2) fun connectors_descr_id =>
    PResult.bind (readWordLe value 15 2) fun terminal_descr_str =>
      .ok { terminal_id := terminal_id, terminal_type := terminal_type,
            assoc_terminal := assoc_terminal, csource_id := csource_id,
            controls := controls, cluster_descr_id := cluster_descr_id,
            ex_terminal_descr_id := ex_terminal_descr_id,
            connectors_descr_id := connectors_descr_id,
            terminal_descr_str := terminal_descr_str }

/-- `impl From<InputTerminal3> for Vec<u8>`. -/
def InputTerminal3.into (val : InputTerminal3) : List Nat :=
  val.terminal_id :: (toLe16 val.terminal_type
    ++ [val.assoc_terminal, val.csource_id]
    ++ toLe32 val.controls
    ++ toLe16 val.cluster_descr_id
    ++ toLe16 val.ex_terminal_descr_id
    ++ toLe16 val.connectors_descr_id
    ++ toLe16 val.terminal_descr_str)

/-- UAC1: 4.3.2.2 Output Terminal Descriptor (`OutputTerminal1`). -/
structure OutputTerminal1 where
  terminal_id : Nat
  terminal_type : Nat
  assoc_terminal : Nat
  source_id : Nat
  terminal_index : Nat
  terminal : Option String
  deriving DecidableEq, Repr

/-- `impl TryFrom<&[u8]> for OutputTerminal1`. -/
def OutputTerminal1.tryFrom (value : List Nat) : PResult OutputTerminal1 :=
  if value.length < 6 then .error (Error.newDescriptorLen "OutputTerminal1" 6 value.length)
  else
    PResult.bind (readAt value 0) fun terminal_id =>
    PResult.bind (readWordLe value 1 2) fun terminal_type =>
    PResult.bind (readAt value 3) fun assoc_terminal =>
    PResult.bind (readAt value 4) fun source_id =>
    PResult.bind (readAt value 5) fun terminal_index =>
      .ok { terminal_id := terminal_id, terminal_type := terminal_type,
            assoc_terminal := assoc_terminal, source_id := source_id,
            terminal_index := terminal_index, terminal := none }

/-- `impl From<OutputTerminal1> for Vec<u8>`. -/
def OutputTerminal1.into (val : OutputTerminal1) : List Nat :=
  val.terminal_id :: (toLe16 val.terminal_type
    ++ [val.assoc_terminal, val.source_id, val.terminal_index])

/-- UAC2: 4.7.2.5 Output Terminal Descriptor (`OutputTerminal2`). -/
structure OutputTerminal2 where
  terminal_id : Nat
  terminal_type : Nat
  assoc_terminal : Nat
  source_id : Nat
  c_source_id : Nat
  controls : Nat
  terminal_index : Nat
  terminal : Option String
  deriving DecidableEq, Repr

/-- `impl TryFrom<&[u8]> for OutputTerminal2`. -/
def OutputTerminal2.tryFrom (value : List Nat) : PResult OutputTerminal2 :=
  if value.length < 9 then .error (Error.newDescriptorLen "OutputTerminal2" 9 value.length)
  else
    PResult.bind (readAt value 0) fun terminal_id =>
    PResult.bind (readWordLe value 1 2) fun terminal_type =>
    PResult.bind (readAt value 3) fun assoc_terminal =>
    PResult.bind (readAt value 4) fun source_id =>
    PResult.bind (readAt value 5) fun c_source_id =>
    PResult.bind (readWordLe value 6 2) fun controls =>
    PResult.bind (readAt value 8) fun terminal_index =>
      .ok { terminal_id := terminal_id, terminal_type := terminal_type,
            assoc_terminal := assoc_terminal, source_id := source_id,
            c_source_id := c_source_id, controls := controls,
            terminal_index := terminal_index, terminal := none }

/-- `impl From<OutputTerminal2> for Vec<u8>`. -/
def OutputTerminal2.into (val : OutputTerminal2) : List Nat :=
  val.terminal_id :: (toLe16 val.terminal_type
    ++ [val.assoc_terminal, val.source_id, val.c_source_id]
    ++ toLe16 val.controls
    ++ [val.terminal_index])

/-- UAC3: 4.5.2.2 Output Terminal Descriptor (`OutputTerminal3`). -/
structure OutputTerminal3 where
  terminal_id : Nat
  terminal_type : Nat
  assoc_terminal : Nat
  source_id : Nat
  c_source_id : Nat
  controls : Nat
  ex_terminal_descr_id : Nat
  connectors_descr_id : Nat
  terminal_descr_str : Nat
  deriving DecidableEq, Repr

/-- `impl TryFrom<&[u8]> for OutputTerminal3`. -/
def OutputTerminal3.tryFrom (value : List Nat) : PResult OutputTerminal3 :=
  if value.length < 16 then .error (Error.newDescriptorLen "OutputTerminal3" 16 value.length)
  else
    PResult.bind (readAt value 0) fun terminal_id =>
    PResult.bind (readWordLe value 1 2) fun terminal_type =>
    PResult.bind (readAt value 3) fun assoc_terminal =>
    PResult.bind (readAt value 4) fun source_id =>
    PResult.bind (readAt value 5) fun c_source_id =>
    PResult.bind (readWordLe value 6 4) fun controls =>
    PResult.bind (readWordLe value 10 2) fun ex_terminal_descr_id =>
    PResult.bind (readWordLe value 12 2) fun connectors_descr_id =>
    PResult.bind (readWordLe value 14 2) fun terminal_descr_str =>
      .ok { terminal_id := terminal_id, terminal_type := terminal_type,
            assoc_terminal := assoc_terminal, source_id := source_id,
            c_source_id := c_source_id, controls := controls,
            ex_terminal_descr_id := ex_terminal_descr_id,
            connectors_descr_id := connectors_descr_id,
            terminal_descr_str := terminal_descr_str }

/-- `impl From<OutputTerminal3> for Vec<u8>`. -/
def OutputTerminal3.into (val : OutputTerminal3) : List Nat :=
  val.terminal_id :: (toLe16 val.terminal_type
    ++ [val.assoc_terminal, val.source_id, val.c_source_id]
    ++ toLe32 val.controls
    ++ toLe16 val.ex_terminal_descr_id
    ++ toLe16 val.connectors_descr_id
    ++ toLe16 val.terminal_descr_str)

/-- UAC3: 4.5.2.3.1 Extended Terminal Header Descriptor. -/
structure ExtendedTerminalHeader where
  descriptor_id : Nat
  nr_channels : Nat
  deriving DecidableEq, Repr

/-- `impl TryFrom<&[u8]> for ExtendedTerminalHeader`. -/
def ExtendedTerminalHeader.tryFrom (value : List Nat) : PResult ExtendedTerminalHeader :=
  if value.length < 2 then
    .error (Error.newDescriptorLen "ExtendedTerminalHeader" 2 value.length)
  else
    PResult.bind (readAt value 0) fun descriptor_id =>
    PResult.bind (readAt value 1) fun nr_channels =>
      .ok { descriptor_id := descriptor_id, nr_channels := nr_channels }

/-- `impl From<ExtendedTerminalHeader> for Vec<u8>`. -/
def ExtendedTerminalHeader.into (val : ExtendedTerminalHeader) : List Nat :=
  [val.descriptor_id, val.nr_channels]

/-- UAC3: 4.5.2.15 Power Domain Descriptor. -/
structure PowerDomain where
  power_domain_id : Nat
  recovery_time_1 : Nat
  recovery_time_2 : Nat
  nr_entities : Nat
  entity_ids : List Nat
  domain_descr_str : Nat
  deriving DecidableEq, Repr

/-- `impl TryFrom<&[u8]> for PowerDomain`. -/
def PowerDomain.tryFrom (value : List Nat) : PResult PowerDomain :=
  if value.length < 8 then .error (Error.newDescriptorLen "PowerDomain" 8 value.length)
  else
    PResult.bind (readAt value 5) fun b5 =>
      let nr_entities := b5
      let expected_len := 8 + nr_entities
      if value.length < expected_len then
        .error (Error.new .invalidDescriptor
          "PowerDomain3 descriptor too short for the number of entities")
      else
        PResult.bind (readAt value 0) fun power_domain_id =>
        PResult.bind (readWordLe value 1 2) fun recovery_time_1 =>
        PResult.bind (readWordLe value 3 2) fun recovery_time_2 =>
        PResult.bind (sliceRange value 6 (6 + nr_entities)) fun entity_ids =>
        PResult.bind (readWordLe value (6 + nr_entities) 2) fun domain_descr_str =>
          .ok { power_domain_id := power_domain_id, recovery_time_1 := recovery_time_1,
                recovery_time_2 := recovery_time_2, nr_entities := b5,
                entity_ids := entity_ids, domain_descr_str := domain_descr_str }

/-- `impl From<PowerDomain> for Vec<u8>`. -/
def PowerDomain.into (val : PowerDomain) : List Nat :=
  val.power_domain_id :: (toLe16 val.recovery_time_1 ++ toLe16 val.recovery_time_2
    ++ [val.nr_entities] ++ val.entity_ids ++ toLe16 val.domain_descr_str)

/-- `slice::get(i).ok_or_else(..)`: a checked read that yields a
recoverable error rather than a panic when out of bounds. -/
def readChecked (value : List Nat) (i : Nat) (e : Error) : PResult Nat :=
  match value.get? i with
  | some b => .ok b
  | none => .error e

/-- UAC1: 4.3.2.3 Mixer Unit Descriptor (`MixerUnit1`). -/
structure MixerUnit1 where
  unit_id : Nat
  nr_in_pins : Nat
  source_ids : List Nat
  nr_channels : Nat
  channel_config : Nat
  channel_names : Nat
  controls : List Nat
  mixer : Nat
  deriving DecidableEq, Repr

/-- `impl TryFrom<&[u8]> for MixerUnit1`.  The number of channels sits
after the source IDs, so its offset depends on the number of input pins;
that read is a checked `get` in the source. -/
def MixerUnit1.tryFrom (value : List Nat) : PResult MixerUnit1 :=
  if value.length < 7 then .error (Error.newDescriptorLen "MixerUnit1" 7 value.length)
  else
    PResult.bind (readAt value 1) fun b1 =>
      let nr_in_pins := b1
      PResult.bind
        (readChecked value (2 + nr_in_pins)
          (Error.newDescriptorLen "MixerUnit1" (2 + nr_in_pins) value.length)) fun nch =>
        let nr_channels := nch
        let expected_len := 7 + nr_in_pins + nr_channels
        if value.length < expected_len then
          .error (Error.new .invalidDescriptor
            "MixerUnit1 descriptor too short for the number of pins and channels")
        else
          PResult.bind (readAt value 0) fun unit_id =>
          PResult.bind (sliceRange value 2 (2 + nr_in_pins)) fun source_ids =>
          PResult.bind (readWordLe value (3 + nr_in_pins) 2) fun channel_config =>
          PResult.bind (readAt value (5 + nr_in_pins)) fun channel_names =>
          PResult.bind (sliceRange value (6 + nr_in_pins) (6 + nr_in_pins + nr_channels))
            fun controls =>
          PResult.bind (readAt value (6 + nr_in_pins + nr_channels)) fun mixer =>
            .ok { unit_id := unit_id, nr_in_pins := b1, source_ids := source_ids,
                  nr_channels := nch, channel_config := channel_config,
                  channel_names := channel_names, controls := controls, mixer := mixer }

/-- `impl From<MixerUnit1> for Vec<u8>`. -/
def MixerUnit1.into (val : MixerUnit1) : List Nat :=
  [val.unit_id, val.nr_in_pins] ++ val.source_ids ++ [val.nr_channels]
    ++ toLe16 val.channel_config ++ [val.channel_names] ++ val.controls ++ [val.mixer]

/-- UAC2: 4.7.2.6 Mixer Unit Descriptor (`MixerUnit2`). -/
structure MixerUnit2 where
  unit_id : Nat
  nr_in_pins : Nat
  source_ids : List Nat
  nr_channels : Nat
  channel_config : Nat
  channel_names : Nat
  mixer_controls : List Nat
  controls : Nat
  mixer : Nat
  deriving DecidableEq, Repr

/-- `impl TryFrom<&[u8]> for MixerUnit2` (the checked `get` error reuses
the name `MixerUnit1`, as in the source). -/
def MixerUnit2.tryFrom (value : List Nat) : PResult MixerUnit2 :=
  if value.length < 10 then .error (Error.newDescriptorLen "MixerUnit2" 10 value.length)
  else
    PResult.bind (readAt value 1) fun b1 =>
      let nr_in_pins := b1
      PResult.bind
        (readChecked value (2 + nr_in_pins)
          (Error.newDescriptorLen "MixerUnit1" (2 + nr_in_pins) value.length)) fun nch =>
        let nr_channels := nch
        let expected_len := 10 + nr_in_pins + nr_channels
        if value.length < expected_len then
          .error (Error.new .invalidDescriptor
            "MixerUnit2 descriptor too short for the number of pins and channels")
        else
          PResult.bind (readAt value 0) fun unit_id =>
          PResult.bind (sliceRange value 2 (2 + nr_in_pins)) fun source_ids =>
          PResult.bind (readWordLe value (3 + nr_in_pins) 4) fun channel_config =>
          PResult.bind (readAt value (7 + nr_in_pins)) fun channel_names =>
          PResult.bind (sliceRange value (8 + nr_in_pins) (8 + nr_in_pins + nr_channels))
            fun mixer_controls =>
          PResult.bind (readAt value (8 + nr_in_pins + nr_channels)) fun controls =>
          PResult.bind (readAt value (9 + nr_in_pins + nr_channels)) fun mixer =>
            .ok { unit_id := unit_id, nr_in_pins := b1, source_ids := source_ids,
                  nr_channels := nch, channel_config := channel_config,
                  channel_names := channel_names, mixer_controls := mixer_controls,
                  controls := controls, mixer := mixer }

/-- `impl From<MixerUnit2> for Vec<u8>`. -/
def MixerUnit2.into (val : MixerUnit2) : List Nat :=
  [val.unit_id, val.nr_in_pins] ++ val.source_ids ++ [val.nr_channels]
    ++ toLe32 val.channel_config ++ [val.channel_names] ++ val.mixer_controls
    ++ [val.controls, val.mixer]

/-- UAC3: 4.5.2.5 Mixer Unit Descriptor (`MixerUnit3`). -/
structure MixerUnit3 where
  unit_id : Nat
  nr_in_pins : Nat
  source_ids : List Nat
  cluster_descr_id : Nat
  mixer_controls : List Nat
  controls : Nat
  mixer_descr_str : Nat
  deriving DecidableEq, Repr

/-- `impl TryFrom<&[u8]> for MixerUnit3`. -/
def MixerUnit3.tryFrom (value : List Nat) : PResult MixerUnit3 :=
  if value.length < 11 then .error (Error.newDescriptorLen "MixerUnit3" 11 value.length)
  else
    PResult.bind (readAt value 1) fun b1 =>
      let nr_in_pins := b1
      let expected_len := 11 + nr_in_pins
      if value.length < expected_len then
        .error (Error.new .invalidDescriptor
          "MixerUnit3 descriptor too short for the number of pins")
      else
        PResult.bind (readAt value 0) fun unit_id =>
        PResult.bind (sliceRange value 2 (2 + nr_in_pins)) fun source_ids =>
        PResult.bind (readWordLe value (2 + nr_in_pins) 2) fun cluster_descr_id =>
        PResult.bind (sliceRange value (4 + nr_in_pins) (4 + nr_in_pins + 1))
          fun mixer_controls =>
        PResult.bind (readWordLe value (5 + nr_in_pins) 4) fun controls =>
        PResult.bind (readWordLe value (9 + nr_in_pins) 2) fun mixer_descr_str =>
          .ok { unit_id := unit_id, nr_in_pins := b1, source_ids := source_ids,
                cluster_descr_id := cluster_descr_id, mixer_controls := mixer_controls,
                controls := controls, mixer_descr_str := mixer_descr_str }

/-- `impl From<MixerUnit3> for Vec<u8>`. -/
def MixerUnit3.into (val : MixerUnit3) : List Nat :=
  [val.unit_id, val.nr_in_pins] ++ val.source_ids ++ toLe16 val.cluster_descr_id
    ++ val.mixer_controls ++ toLe32 val.controls ++ toLe16 val.mixer_descr_str

/-- UAC1 `SelectorUnit1`. -/
structure SelectorUnit1 where
  unit_id : Nat
  nr_in_pins : Nat
  source_ids : List Nat
  selector_index : Nat
  selector : Option String
  deriving DecidableEq, Repr

/-- `impl TryFrom<&[u8]> for SelectorUnit1`. -/
def SelectorUnit1.tryFrom (value : List Nat) : PResult SelectorUnit1 :=
  if value.length < 3 then .error (Error.newDescriptorLen "SelectorUnit1" 3 value.length)
  else
    PResult.bind (readAt value 1) fun b1 =>
      let nr_in_pins := b1
      let expected_length := 3 + nr_in_pins
      if value.length < expected_length then
        .error (Error.new .invalidDescriptor "SelectorUnit1 descriptor too short")
      else
        PResult.bind (sliceRange value 2 (2 + nr_in_pins)) fun source_ids =>
        PResult.bind (readAt value 0) fun unit_id =>
        PResult.bind (readAt value (2 + nr_in_pins)) fun selector_index =>
          .ok { unit_id := unit_id, nr_in_pins := b1, source_ids := source_ids,
                selector_index := selector_index, selector := none }

/-- `impl From<SelectorUnit1> for Vec<u8>`. -/
def SelectorUnit1.into (val : SelectorUnit1) : List Nat :=
  [val.unit_id, val.nr_in_pins] ++ val.source_ids ++ [val.selector_index]

/-- UAC2 `SelectorUnit2`. -/
structure SelectorUnit2 where
  unit_id : Nat
  nr_in_pins : Nat
  source_ids : List Nat
  controls : Nat
  selector_index : Nat
  selector : Option String
  deriving DecidableEq, Repr

/-- `impl TryFrom<&[u8]> for SelectorUnit2`. -/
def SelectorUnit2.tryFrom (value : List Nat) : PResult SelectorUnit2 :=
  if value.length < 4 then .error (Error.newDescriptorLen "SelectorUnit2" 4 value.length)
  else
    PResult.bind (readAt value 1) fun b1 =>
      let nr_in_pins := b1
      let expected_length := 4 + nr_in_pins
      if value.length < expected_length then
        .error (Error.new .invalidDescriptor "SelectorUnit2 descriptor too short")
      else
        PResult.bind (sliceRange value 2 (2 + nr_in_pins)) fun source_ids =>
        PResult.bind (readAt value 0) fun unit_id =>
        PResult.bind (readAt value (2 + nr_in_pins)) fun controls =>
        PResult.bind (readAt value (3 + nr_in_pins)) fun selector_index =>
          .ok { unit_id := unit_id, nr_in_pins := b1, source_ids := source_ids,
                controls := controls, selector_index := selector_index, selector := none }

/-- `impl From<SelectorUnit2> for Vec<u8>`. -/
def SelectorUnit2.into (val : SelectorUnit2) : List Nat :=
  [val.unit_id, val.nr_in_pins] ++ val.source_ids ++ [val.controls, val.selector_index]

/-- UAC3 `SelectorUnit3`. -/
structure SelectorUnit3 where
  unit_id : Nat
  nr_in_pins : Nat
  source_ids : List Nat
  controls : Nat
  selector_descr_str : Nat
  deriving DecidableEq, Repr

/-- `impl TryFrom<&[u8]> for SelectorUnit3`. -/
def SelectorUnit3.tryFrom (value : List Nat) : PResult SelectorUnit3 :=
  if value.length < 8 then .error (Error.newDescriptorLen "SelectorUnit3" 8 value.length)
  else
    PResult.bind (readAt value 1) fun b1 =>
      let nr_in_pins := b1
      let expected_length := 8 + nr_in_pins
      if value.length < expected_length then
        .error (Error.new .invalidDescriptor "SelectorUnit3 descriptor too short")
      else
        PResult.bind (sliceRange value 2 (2 + nr_in_pins)) fun source_ids =>
        PResult.bind (readWordLe value (2 + nr_in_pins) 4) fun controls =>
        PResult.bind (readAt value 0) fun unit_id =>
        PResult.bind (readWordLe value (6 + nr_in_pins) 2) fun selector_descr_str =>
          .ok { unit_id := unit_id, nr_in_pins := b1, source_ids := source_ids,
                controls := controls, selector_descr_str := selector_descr_str }

/-- `impl From<SelectorUnit3> for Vec<u8>`. -/
def SelectorUnit3.into (val : SelectorUnit3) : List Nat :=
  [val.unit_id, val.nr_in_pins] ++ val.source_ids ++ toLe32 val.controls
    ++ toLe16 val.selector_descr_str

/-- UAC1 Up/Down-mix and Dolby Prologic processing-unit extension
(`AudioProcessingUnitExtended1`).  The mode list is read by
`(1..value.len()).step_by(2)` with an unchecked `value[i + 1]`. -/
structure AudioProcessingUnitExtended1 where
  nr_modes : Nat
  modes : List Nat
  deriving DecidableEq, Repr

/-- `impl TryFrom<&[u8]> for AudioProcessingUnitExtended1`. -/
def AudioProcessingUnitExtended1.tryFrom (value : List Nat) :
    PResult AudioProcessingUnitExtended1 :=
  if value.length < 3 then
    .error (Error.newDescriptorLen "AudioProcessingUnitExtended1" 3 value.length)
  else
    PResult.bind (readAt value 0) fun nr_modes =>
    PResult.bind (readWordsLe value 2 (stepIndices 1 value.length 2)) fun modes =>
      .ok { nr_modes := nr_modes, modes := modes }

/-- `impl From<AudioProcessingUnitExtended1> for Vec<u8>`. -/
def AudioProcessingUnitExtended1.into (val : AudioProcessingUnitExtended1) : List Nat :=
  val.nr_modes :: (val.modes.map toLe16).flatten

/-- UAC2: 4.7.2.11.1 Up/Down-mix Processing Unit extension. -/
structure AudioProcessingUnit2UpDownMix where
  nr_modes : Nat
  modes : List Nat
  deriving DecidableEq, Repr

/-- `impl TryFrom<&[u8]> for AudioProcessingUnit2UpDownMix`. -/
def AudioProcessingUnit2UpDownMix.tryFrom (value : List Nat) :
    PResult AudioProcessingUnit2UpDownMix :=
  if value.length < 5 then
    .error (Error.newDescriptorLen "AudioProcessingUnit2UpDownMix" 5 value.length)
  else
    PResult.bind (readAt value 0) fun nr_modes =>
    PResult.bind (readWordsLe value 4 (stepIndices 1 value.length 4)) fun modes =>
      .ok { nr_modes := nr_modes, modes := modes }

/-- `impl From<AudioProcessingUnit2UpDownMix> for Vec<u8>`. -/
def AudioProcessingUnit2UpDownMix.into (val : AudioProcessingUnit2UpDownMix) : List Nat :=
  val.nr_modes :: (val.modes.map toLe32).flatten

/-- UAC2: 4.7.2.11.2 Dolby Prologic Processing Unit extension. -/
structure AudioProcessingUnit2DolbyPrologic where
  nr_modes : Nat
  modes : List Nat
  deriving DecidableEq, Repr

/-- `impl TryFrom<&[u8]> for AudioProcessingUnit2DolbyPrologic`. -/
def AudioProcessingUnit2DolbyPrologic.tryFrom (value : List Nat) :
    PResult AudioProcessingUnit2DolbyPrologic :=
  if value.length < 5 then
    .error (Error.newDescriptorLen "AudioProcessingUnit2DolbyPrologic" 5 value.length)
  else
    PResult.bind (readAt value 0) fun nr_modes =>
    PResult.bind (readWordsLe value 4 (stepIndices 1 value.length 4)) fun modes =>
      .ok { nr_modes := nr_modes, modes := modes }

/-- `impl From<AudioProcessingUnit2DolbyPrologic> for Vec<u8>`. -/
def AudioProcessingUnit2DolbyPrologic.into (val : AudioProcessingUnit2DolbyPrologic) :
    List Nat :=
  val.nr_modes :: (val.modes.map toLe32).flatten

/-- `AudioProcessingUnit2Specific`. -/
inductive AudioProcessingUnit2Specific where
  | UpDownMix (v : AudioProcessingUnit2UpDownMix)
  | DolbyPrologic (v : AudioProcessingUnit2DolbyPrologic)
  deriving DecidableEq, Repr

/-- `impl From<AudioProcessingUnit2Specific> for Vec<u8>`. -/
def AudioProcessingUnit2Specific.into : AudioProcessingUnit2Specific → List Nat
  | .UpDownMix v => v.into
  | .DolbyPrologic v => v.into

/-- UAC3: 4.5.2.10.1 Up/Down-mix Processing Unit extension. -/
structure AudioProcessingUnit3UpDownMix where
  controls : Nat
  nr_modes : Nat
  cluster_descr_ids : List Nat
  deriving DecidableEq, Repr

/-- `impl TryFrom<&[u8]> for AudioProcessingUnit3UpDownMix`. -/
def AudioProcessingUnit3UpDownMix.tryFrom (value : List Nat) :
    PResult AudioProcessingUnit3UpDownMix :=
  if value.length < 7 then
    .error (Error.newDescriptorLen "AudioProcessingUnit3UpDownMix" 7 value.length)
  else
    PResult.bind (readAt value 4) fun nr_modes =>
    PResult.bind (readWordsLe value 2 (stepIndices 5 value.length 2)) fun cluster_descr_ids =>
    PResult.bind (readWordLe value 0 4) fun controls =>
      .ok { controls := controls, nr_modes := nr_modes,
            cluster_descr_ids := cluster_descr_ids }

/-- `impl From<AudioProcessingUnit3UpDownMix> for Vec<u8>`. -/
def AudioProcessingUnit3UpDownMix.into (val : AudioProcessingUnit3UpDownMix) : List Nat :=
  toLe32 val.controls ++ [val.nr_modes] ++ (val.cluster_descr_ids.map toLe16).flatten

/-- UAC3: 4.5.2.10.2 Stereo Extender Processing Unit extension. -/
structure AudioProcessingUnit3StereoExtender where
  controls : Nat
  deriving DecidableEq, Repr

/-- `impl TryFrom<&[u8]> for AudioProcessingUnit3StereoExtender`. -/
def AudioProcessingUnit3StereoExtender.tryFrom (value : List Nat) :
    PResult AudioProcessingUnit3StereoExtender :=
  if value.length < 4 then
    .error (Error.newDescriptorLen "AudioProcessingUnit3StereoExtender" 4 value.length)
  else
    PResult.bind (readWordLe value 0 4) fun controls => .ok { controls := controls }

/-- `impl From<AudioProcessingUnit3StereoExtender> for Vec<u8>`. -/
def AudioProcessingUnit3StereoExtender.into (val : AudioProcessingUnit3StereoExtender) :
    List Nat :=
  toLe32 val.controls

/-- UAC3: 4.5.2.10.3 Multi Function Processing Unit extension. -/
structure AudioProcessingUnit3MultiFunction where
  controls : Nat
  cluster_descr_id : Nat
  algorithms : Nat
  deriving DecidableEq, Repr

/-- `impl TryFrom<&[u8]> for AudioProcessingUnit3MultiFunction`. -/
def AudioProcessingUnit3MultiFunction.tryFrom (value : List Nat) :
    PResult AudioProcessingUnit3MultiFunction :=
  if value.length < 10 then
    .error (Error.newDescriptorLen "AudioProcessingUnit3MultiFunction" 10 value.length)
  else
    PResult.bind (readWordLe value 0 4) fun controls =>
    PResult.bind (readWordLe value 4 2) fun cluster_descr_id =>
    PResult.bind (readWordLe value 6 4) fun algorithms =>
      .ok { controls := controls, cluster_descr_id := cluster_descr_id,
            algorithms := algorithms }

/-- `impl From<AudioProcessingUnit3MultiFunction> for Vec<u8>`. -/
def AudioProcessingUnit3MultiFunction.into (val : AudioProcessingUnit3MultiFunction) :
    List Nat :=
  toLe32 val.controls ++ toLe16 val.cluster_descr_id ++ toLe32 val.algorithms

/-- `AudioProcessingUnit3Specific`. -/
inductive AudioProcessingUnit3Specific where
  | UpDownMix (v : AudioProcessingUnit3UpDownMix)
  | StereoExtender (v : AudioProcessingUnit3StereoExtender)
  | MultiFunction (v : AudioProcessingUnit3MultiFunction)
  deriving DecidableEq, Repr

/-- `impl From<AudioProcessingUnit3Specific> for Vec<u8>`. -/
def AudioProcessingUnit3Specific.into : AudioProcessingUnit3Specific → List Nat
  | .UpDownMix v => v.into
  | .StereoExtender v => v.into
  | .MultiFunction v => v.into

/-- UAC1: 4.3.2.6 Processing Unit Descriptor (`ProcessingUnit1`). -/
structure ProcessingUnit1 where
  unit_id : Nat
  process_type : Nat
  nr_in_pins : Nat
  source_ids : List Nat
  nr_channels : Nat
  channel_config : Nat
  channel_names_index : Nat
  channel_names : Option String
  control_size : Nat
  controls : List Nat
  processing_index : Nat
  processing : Option String
  specific : Option AudioProcessingUnitExtended1
  deriving DecidableEq, Repr

/-- `impl TryFrom<&[u8]> for ProcessingUnit1`. -/
def ProcessingUnit1.tryFrom (value : List Nat) : PResult ProcessingUnit1 :=
  if value.length < 10 then
    .error (Error.newDescriptorLen "ProcessingUnit1" 10 value.length)
  else
    PResult.bind (readAt value 3) fun b3 =>
      let nr_in_pins := b3
      PResult.bind
        (readChecked value (8 + nr_in_pins)
          (Error.newDescriptorLen "ProcessingUnit1" (10 + nr_in_pins) value.length))
        fun control_size =>
        let expected_length := 10 + nr_in_pins + control_size
        if value.length < expected_length then
          .error (Error.new .invalidDescriptor
            "ProcessingUnit1 descriptor too short for the number of pins and controls")
        else
          PResult.bind (readAt value 1) fun b1 =>
          PResult.bind
            (if b1 = 1 ∨ b1 = 2 then
              PResult.bind (sliceFrom value expected_length) fun tail =>
                PResult.map some (AudioProcessingUnitExtended1.tryFrom tail)
            else .ok none) fun specific =>
          PResult.bind (readAt value 0) fun unit_id =>
          PResult.bind (readWordLe value 1 2) fun process_type =>
          PResult.bind (sliceRange value 4 (4 + nr_in_pins)) fun source_ids =>
          PResult.bind (readAt value (4 + nr_in_pins)) fun nr_channels =>
          PResult.bind (readWordLe value (5 + nr_in_pins) 2) fun channel_config =>
          PResult.bind (readAt value (7 + nr_in_pins)) fun channel_names_index =>
          PResult.bind
            (sliceRange value (9 + nr_in_pins) (9 + nr_in_pins + control_size))
            fun controls =>
          PResult.bind (readAt value (expected_length - 1)) fun processing_index =>
            .ok { unit_id := unit_id, process_type := process_type, nr_in_pins := b3,
                  source_ids := source_ids, nr_channels := nr_channels,
                  channel_config := channel_config,
                  channel_names_index := channel_names_index, channel_names := none,
                  control_size := control_size, controls := controls,
                  processing_index := processing_index, processing := none,
                  specific := specific }

/-- `impl From<ProcessingUnit1> for Vec<u8>`. -/
def ProcessingUnit1.into (val : ProcessingUnit1) : List Nat :=
  val.unit_id :: (toLe16 val.process_type ++ [val.nr_in_pins] ++ val.source_ids
    ++ [val.nr_channels] ++ toLe16 val.channel_config
    ++ [val.channel_names_index, val.control_size] ++ val.controls
    ++ (match val.specific with | some s => s.into | none => [])
    ++ [val.processing_index])

/-- UAC2: 4.7.2.11 Processing Unit Descriptor (`ProcessingUnit2`). -/
structure ProcessingUnit2 where
  unit_id : Nat
  process_type : Nat
  nr_in_pins : Nat
  source_ids : List Nat
  nr_channels : Nat
  channel_config : Nat
  channel_names_index : Nat
  channel_names : Option String
  controls : Nat
  processing_index : Nat
  processing : Option String
  specific : Option AudioProcessingUnit2Specific
  deriving DecidableEq, Repr

/-- `impl TryFrom<&[u8]> for ProcessingUnit2`. -/
def ProcessingUnit2.tryFrom (value : List Nat) : PResult ProcessingUnit2 :=
  if value.length < 13 then
    .error (Error.newDescriptorLen "ProcessingUnit2" 13 value.length)
  else
    PResult.bind (readAt value 3) fun b3 =>
      let nr_in_pins := b3
      let expected_length := 13 + nr_in_pins
      if value.length < expected_length then
        .error (Error.new .invalidDescriptor
          "ProcessingUnit2 descriptor too short for the number of pins and controls")
      else
        PResult.bind (readAt value 1) fun b1 =>
        PResult.bind
          (if b1 = 1 then
            PResult.bind (sliceFrom value expected_length) fun tail =>
              PResult.map (fun v => some (AudioProcessingUnit2Specific.UpDownMix v))
                (AudioProcessingUnit2UpDownMix.tryFrom tail)
          else if b1 = 2 then
            PResult.bind (sliceFrom value expected_length) fun tail =>
              PResult.map (fun v => some (AudioProcessingUnit2Specific.DolbyPrologic v))
                (AudioProcessingUnit2DolbyPrologic.tryFrom tail)
          else .ok none) fun specific =>
        PResult.bind (readAt value 0) fun unit_id =>
        PResult.bind (readWordLe value 1 2) fun process_type =>
        PResult.bind (sliceRange value 4 (4 + nr_in_pins)) fun source_ids =>
        PResult.bind (readAt value (4 + nr_in_pins)) fun nr_channels =>
        PResult.bind (readWordLe value (5 + nr_in_pins) 4) fun channel_config =>
        PResult.bind (readAt value (9 + nr_in_pins)) fun channel_names_index =>
        PResult.bind (readWordLe value (10 + nr_in_pins) 2) fun controls =>
        PResult.bind (readAt value (12 + nr_in_pins)) fun processing_index =>
          .ok { unit_id := unit_id, process_type := process_type, nr_in_pins := b3,
                source_ids := source_ids, nr_channels := nr_channels,
                channel_config := channel_config,
                channel_names_index := channel_names_index, channel_names := none,
                controls := controls, processing_index := processing_index,
                processing := none, specific := specific }

/-- `impl From<ProcessingUnit2> for Vec<u8>`. -/
def ProcessingUnit2.into (val : ProcessingUnit2) : List Nat :=
  val.unit_id :: (toLe16 val.process_type ++ [val.nr_in_pins] ++ val.source_ids
    ++ [val.nr_channels] ++ toLe32 val.channel_config ++ [val.channel_names_index]
    ++ toLe16 val.controls
    ++ (match val.specific with | some s => s.into | none => [])
    ++ [val.processing_index])

/-- UAC3: 4.5.2.10 Processing Unit Descriptor (`ProcessingUnit3`). -/
structure ProcessingUnit3 where
  unit_id : Nat
  process_type : Nat
  nr_in_pins : Nat
  source_ids : List Nat
  processing_descr_str : Nat
  specific : Option AudioProcessingUnit3Specific
  deriving DecidableEq, Repr

/-- `impl TryFrom<&[u8]> for ProcessingUnit3` (note: the variable-length
check uses `ErrorKind::InvalidArg`, as in the source). -/
def ProcessingUnit3.tryFrom (value : List Nat) : PResult ProcessingUnit3 :=
  if value.length < 7 then
    .error (Error.newDescriptorLen "ProcessingUnit3" 7 value.length)
  else
    PResult.bind (readAt value 3) fun b3 =>
      let nr_in_pins := b3
      let expected_length := 7 + nr_in_pins
      if value.length < expected_length then
        .error (Error.new .invalidArg
          "ProcessingUnit3 descriptor too short for the number of pins and controls")
      else
        PResult.bind (readAt value 1) fun b1 =>
        PResult.bind
          (if b1 = 1 then
            PResult.bind (sliceFrom value expected_length) fun tail =>
              PResult.map (fun v => some (AudioProcessingUnit3Specific.UpDownMix v))
                (AudioProcessingUnit3UpDownMix.tryFrom tail)
          else if b1 = 2 then
            PResult.bind (sliceFrom value expected_length) fun tail =>
              PResult.map (fun v => some (AudioProcessingUnit3Specific.StereoExtender v))
                (AudioProcessingUnit3StereoExtender.tryFrom tail)
          else if b1 = 3 then
            PResult.bind (sliceFrom value expected_length) fun tail =>
              PResult.map (fun v => some (AudioProcessingUnit3Specific.MultiFunction v))
                (AudioProcessingUnit3MultiFunction.tryFrom tail)
          else .ok none) fun specific =>
        PResult.bind (readAt value 0) fun unit_id =>
        PResult.bind (readWordLe value 1 2) fun process_type =>
        PResult.bind (sliceRange value 4 (4 + nr_in_pins)) fun source_ids =>
        PResult.bind (readWordLe value (5 + nr_in_pins) 2) fun processing_descr_str =>
          .ok { unit_id := unit_id, process_type := process_type, nr_in_pins := b3,
                source_ids := source_ids, processing_descr_str := processing_descr_str,
                specific := specific }

/-- `impl From<ProcessingUnit3> for Vec<u8>`. -/
def ProcessingUnit3.into (val : ProcessingUnit3) : List Nat :=
  val.unit_id :: (toLe16 val.process_type ++ [val.nr_in_pins] ++ val.source_ids
    ++ toLe16 val.processing_descr_str
    ++ (match val.specific with | some s => s.into | none => []))

/-- UAC2: 4.7.2.10 Effect Unit Descriptor (`EffectUnit2`): the control
list is read by `(4..value.len() - 1).step_by(4)` with unchecked
`value[i + 1] ..= value[i + 3]`. -/
structure EffectUnit2 where
  unit_id : Nat
  effect_type : Nat
  source_id : Nat
  controls : List Nat
  effect_index : Nat
  effect : Option String
  deriving DecidableEq, Repr

/-- `impl TryFrom<&[u8]> for EffectUnit2`. -/
def EffectUnit2.tryFrom (value : List Nat) : PResult EffectUnit2 :=
  if value.length < 9 then .error (Error.newDescriptorLen "EffectUnit2" 9 value.length)
  else
    PResult.bind (readWordsLe value 4 (stepIndices 4 (value.length - 1) 4)) fun controls =>
    PResult.bind (readAt value 0) fun unit_id =>
    PResult.bind (readWordLe value 1 2) fun effect_type =>
    PResult.bind (readAt value 3) fun source_id =>
    PResult.bind (readAt value (value.length - 1)) fun effect_index =>
      .ok { unit_id := unit_id, effect_type := effect_type, source_id := source_id,
            controls := controls, effect_index := effect_index, effect := none }

/-- `impl From<EffectUnit2> for Vec<u8>`. -/
def EffectUnit2.into (val : EffectUnit2) : List Nat :=
  val.unit_id :: (toLe16 val.effect_type ++ [val.source_id]
    ++ (val.controls.map toLe32).flatten ++ [val.effect_index])

/-- UAC3: 4.5.2.9 Effect Unit Descriptor (`EffectUnit3`). -/
structure EffectUnit3 where
  unit_id : Nat
  effect_type : Nat
  source_id : Nat
  controls : List Nat
  effect_descr_str : Nat
  deriving DecidableEq, Repr

/-- `impl TryFrom<&[u8]> for EffectUnit3`. -/
def EffectUnit3.tryFrom (value : List Nat) : PResult EffectUnit3 :=
  if value.length < 10 then .error (Error.newDescriptorLen "EffectUnit3" 10 value.length)
  else
    PResult.bind (readWordsLe value 4 (stepIndices 4 (value.length - 2) 4)) fun controls =>
    PResult.bind (readAt value 0) fun unit_id =>
    PResult.bind (readWordLe value 1 2) fun effect_type =>
    PResult.bind (readAt value 3) fun source_id =>
    PResult.bind (readWordLe value (value.length - 2) 2) fun effect_descr_str =>
      .ok { unit_id := unit_id, effect_type := effect_type, source_id := source_id,
            controls := controls, effect_descr_str := effect_descr_str }

/-- `impl From<EffectUnit3> for Vec<u8>`. -/
def EffectUnit3.into (val : EffectUnit3) : List Nat :=
  val.unit_id :: (toLe16 val.effect_type ++ [val.source_id]
    ++ (val.controls.map toLe32).flatten ++ toLe16 val.effect_descr_str)

/-- UAC1: 4.3.2.5 Feature Unit Descriptor (`FeatureUnit1`). -/
structure FeatureUnit1 where
  unit_id : Nat
  source_id : Nat
  control_size : Nat
  controls : List Nat
  feature_index : Nat
  feature : Option String
  deriving DecidableEq, Repr

/-- `impl TryFrom<&[u8]> for FeatureUnit1`. -/
def FeatureUnit1.tryFrom (value : List Nat) : PResult FeatureUnit1 :=
  if value.length < 4 then .error (Error.newDescriptorLen "FeatureUnit1" 4 value.length)
  else
    PResult.bind (readAt value 2) fun control_size =>
      let expected_length := 4 + control_size
      if value.length < expected_length then
        .error (Error.new .invalidDescriptor
          "Audio Feature Unit 1 descriptor too short for the number of controls")
      else
        PResult.bind (sliceRange value 3 (3 + control_size)) fun controls =>
        PResult.bind (readAt value 0) fun unit_id =>
        PResult.bind (readAt value 1) fun source_id =>
        PResult.bind (readAt value (3 + control_size)) fun feature_index =>
          .ok { unit_id := unit_id, source_id := source_id, control_size := control_size,
                controls := controls, feature_index := feature_index, feature := none }

/-- `impl From<FeatureUnit1> for Vec<u8>`. -/
def FeatureUnit1.into (val : FeatureUnit1) : List Nat :=
  [val.unit_id, val.source_id, val.control_size] ++ val.controls ++ [val.feature_index]

/-- UAC2: 4.7.2.8 Feature Unit Descriptor (`FeatureUnit2`): `controls` is
the four bytes 2..6 and the feature index is byte 7 (byte 6 is skipped by
the decoder and dropped by the encoder, as in the source). -/
structure FeatureUnit2 where
  unit_id : Nat
  source_id : Nat
  controls : List Nat
  feature_index : Nat
  feature : Option String
  deriving DecidableEq, Repr

/-- `impl TryFrom<&[u8]> for FeatureUnit2`. -/
def FeatureUnit2.tryFrom (value : List Nat) : PResult FeatureUnit2 :=
  if value.length < 8 then .error (Error.newDescriptorLen "FeatureUnit2" 8 value.length)
  else
    PResult.bind (readAt value 0) fun unit_id =>
    PResult.bind (readAt value 1) fun source_id =>
    PResult.bind (sliceRange value 2 6) fun controls =>
    PResult.bind (readAt value 7) fun feature_index =>
      .ok { unit_id := unit_id, source_id := source_id, controls := controls,
            feature_index := feature_index, feature := none }

/-- `impl From<FeatureUnit2> for Vec<u8>`. -/
def FeatureUnit2.into (val : FeatureUnit2) : List Nat :=
  [val.unit_id, val.source_id] ++ val.controls ++ [val.feature_index]

/-- UAC3: 4.5.2.7 Feature Unit Descriptor (`FeatureUnit3`). -/
structure FeatureUnit3 where
  unit_id : Nat
  source_id : Nat
  controls : List Nat
  feature_descr_str : Nat
  deriving DecidableEq, Repr

/-- `impl TryFrom<&[u8]> for FeatureUnit3`. -/
def FeatureUnit3.tryFrom (value : List Nat) : PResult FeatureUnit3 :=
  if value.length < 8 then .error (Error.newDescriptorLen "FeatureUnit3" 8 value.length)
  else
    PResult.bind (readAt value 0) fun unit_id =>
    PResult.bind (readAt value 1) fun source_id =>
    PResult.bind (sliceRange value 2 6) fun controls =>
    PResult.bind (readWordLe value 6 2) fun feature_descr_str =>
      .ok { unit_id := unit_id, source_id := source_id, controls := controls,
            feature_descr_str := feature_descr_str }

/-- `impl From<FeatureUnit3> for Vec<u8>`. -/
def FeatureUnit3.into (val : FeatureUnit3) : List Nat :=
  [val.unit_id, val.source_id] ++ val.controls ++ toLe16 val.feature_descr_str

/-- UAC1: 4.3.2.7 Extension Unit Descriptor (`ExtensionUnit1`): the
control-size byte at `value[8 + nr_in_pins]` is an unchecked index. -/
structure ExtensionUnit1 where
  unit_id : Nat
  extension_code : Nat
  nr_in_pins : Nat
  source_ids : List Nat
  nr_channels : Nat
  channel_config : Nat
  channel_names_index : Nat
  channel_names : Option String
  control_size : Nat
  controls : List Nat
  extension_index : Nat
  extension : Option String
  deriving DecidableEq, Repr

/-- `impl TryFrom<&[u8]> for ExtensionUnit1`. -/
def ExtensionUnit1.tryFrom (value : List Nat) : PResult ExtensionUnit1 :=
  if value.length < 10 then .error (Error.newDescriptorLen "ExtensionUnit1" 10 value.length)
  else
    PResult.bind (readAt value 3) fun b3 =>
      let nr_in_pins := b3
      PResult.bind (readAt value (8 + nr_in_pins)) fun control_size =>
        let expected_length := 10 + nr_in_pins + control_size
        if value.length < expected_length then
          .error (Error.new .invalidDescriptor
            "ExtensionUnit1 descriptor too short for the number of pins and controls")
        else
          PResult.bind (sliceRange value 4 (4 + nr_in_pins)) fun source_ids =>
          PResult.bind
            (sliceRange value (9 + nr_in_pins) (9 + nr_in_pins + control_size))
            fun controls =>
          PResult.bind (readAt value 0) fun unit_id =>
          PResult.bind (readWordLe value 1 2) fun extension_code =>
          PResult.bind (readAt value (4 + nr_in_pins)) fun nr_channels =>
          PResult.bind (readWordLe value (5 + nr_in_pins) 2) fun channel_config =>
          PResult.bind (readAt value (7 + nr_in_pins)) fun channel_names_index =>
          PResult.bind (readAt value (expected_length - 1)) fun extension_index =>
            .ok { unit_id := unit_id, extension_code := extension_code, nr_in_pins := b3,
                  source_ids := source_ids, nr_channels := nr_channels,
                  channel_config := channel_config,
                  channel_names_index := channel_names_index, channel_names := none,
                  control_size := control_size, controls := controls,
                  extension_index := extension_index, extension := none }

/-- `impl From<ExtensionUnit1> for Vec<u8>`. -/
def ExtensionUnit1.into (val : ExtensionUnit1) : List Nat :=
  val.unit_id :: (toLe16 val.extension_code ++ [val.nr_in_pins] ++ val.source_ids
    ++ [val.nr_channels] ++ toLe16 val.channel_config
    ++ [val.channel_names_index, val.control_size] ++ val.controls
    ++ [val.extension_index])

/-- UAC2: 4.7.2.12 Extension Unit Descriptor (`ExtensionUnit2`). -/
structure ExtensionUnit2 where
  unit_id : Nat
  extension_code : Nat
  nr_in_pins : Nat
  source_ids : List Nat
  nr_channels : Nat
  channel_config : Nat
  channel_names_index : Nat
  channel_names : Option String
  controls : Nat
  extension_index : Nat
  extension : Option String
  deriving DecidableEq, Repr

/-- `impl TryFrom<&[u8]> for ExtensionUnit2`. -/
def ExtensionUnit2.tryFrom (value : List Nat) : PResult ExtensionUnit2 :=
  if value.length < 12 then .error (Error.newDescriptorLen "ExtensionUnit2" 12 value.length)
  else
    PResult.bind (readAt value 3) fun b3 =>
      let nr_in_pins := b3
      let expected_length := 12 + nr_in_pins
      if value.length < expected_length then
        .error (Error.new .invalidDescriptor
          "ExtensionUnit2 descriptor too short for the number of pins and controls")
      else
        PResult.bind (sliceRange value 4 (4 + nr_in_pins)) fun source_ids =>
        PResult.bind (readAt value 0) fun unit_id =>
        PResult.bind (readWordLe value 1 2) fun extension_code =>
        PResult.bind (readAt value (4 + nr_in_pins)) fun nr_channels =>
        PResult.bind (readWordLe value (5 + nr_in_pins) 4) fun channel_config =>
        PResult.bind (readAt value (9 + nr_in_pins)) fun channel_names_index =>
        PResult.bind (readAt value (10 + nr_in_pins)) fun controls =>
        PResult.bind (readAt value (11 + nr_in_pins)) fun extension_index =>
          .ok { unit_id := unit_id, extension_code := extension_code, nr_in_pins := b3,
                source_ids := source_ids, nr_channels := nr_channels,
                channel_config := channel_config,
                channel_names_index := channel_names_index, channel_names := none,
                controls := controls, extension_index := extension_index,
                extension := none }

/-- `impl From<ExtensionUnit2> for Vec<u8>`. -/
def ExtensionUnit2.into (val : ExtensionUnit2) : List Nat :=
  val.unit_id :: (toLe16 val.extension_code ++ [val.nr_in_pins] ++ val.source_ids
    ++ [val.nr_channels] ++ toLe32 val.channel_config
    ++ [val.channel_names_index, val.controls, val.extension_index])

/-- UAC3: 4.5.2.11 Extension Unit Descriptor (`ExtensionUnit3`). -/
structure ExtensionUnit3 where
  unit_id : Nat
  extension_code : Nat
  nr_in_pins : Nat
  source_ids : List Nat
  extension_descr_str : Nat
  controls : Nat
  cluster_descr_id : Nat
  deriving DecidableEq, Repr

/-- `impl TryFrom<&[u8]> for ExtensionUnit3`. -/
def ExtensionUnit3.tryFrom (value : List Nat) : PResult ExtensionUnit3 :=
  if value.length < 12 then .error (Error.newDescriptorLen "ExtensionUnit3" 12 value.length)
  else
    PResult.bind (readAt value 3) fun b3 =>
      let nr_in_pins := b3
      let expected_length := 12 + nr_in_pins
      if value.length < expected_length then
        .error (Error.new .invalidDescriptor
          "ExtensionUnit3 descriptor too short for the number of pins and controls")
      else
        PResult.bind (sliceRange value 4 (4 + nr_in_pins)) fun source_ids =>
        PResult.bind (readAt value 0) fun unit_id =>
        PResult.bind (readWordLe value 1 2) fun extension_code =>
        PResult.bind (readWordLe value (4 + nr_in_pins) 2) fun extension_descr_str =>
        PResult.bind (readWordLe value (6 + nr_in_pins) 4) fun controls =>
        PResult.bind (readWordLe value (10 + nr_in_pins) 2) fun cluster_descr_id =>
          .ok { unit_id := unit_id, extension_code := extension_code, nr_in_pins := b3,
                source_ids := source_ids, extension_descr_str := extension_descr_str,
                controls := controls, cluster_descr_id := cluster_descr_id }

/-- `impl From<ExtensionUnit3> for Vec<u8>`. -/
def ExtensionUnit3.into (val : ExtensionUnit3) : List Nat :=
  val.unit_id :: (toLe16 val.extension_code ++ [val.nr_in_pins] ++ val.source_ids
    ++ toLe16 val.extension_descr_str ++ toLe32 val.controls
    ++ toLe16 val.cluster_descr_id)

/-- UAC2: 4.7.2.1 Clock Source Descriptor (`ClockSource2`). -/
structure ClockSource2 where
  clock_id : Nat
  attributes : Nat
  controls : Nat
  assoc_terminal : Nat
  clock_source_index : Nat
  clock_source : Option String
  deriving DecidableEq, Repr

/-- `impl TryFrom<&[u8]> for ClockSource2`. -/
def ClockSource2.tryFrom (value : List Nat) : PResult ClockSource2 :=
  if value.length < 5 then .error (Error.newDescriptorLen "ClockSource2" 5 value.length)
  else
    PResult.bind (readAt value 0) fun clock_id =>
    PResult.bind (readAt value 1) fun attributes =>
    PResult.bind (readAt value 2) fun controls =>
    PResult.bind (readAt value 3) fun assoc_terminal =>
    PResult.bind (readAt value 4) fun clock_source_index =>
      .ok { clock_id := clock_id, attributes := attributes, controls := controls,
            assoc_terminal := assoc_terminal, clock_source_index := clock_source_index,
            clock_source := none }

/-- `impl From<ClockSource2> for Vec<u8>`. -/
def ClockSource2.into (val : ClockSource2) : List Nat :=
  [val.clock_id, val.attributes, val.controls, val.assoc_terminal, val.clock_source_index]

/-- UAC3: 4.5.2.12 Clock Source Descriptor (`ClockSource3`). -/
structure ClockSource3 where
  clock_id : Nat
  attributes : Nat
  controls : Nat
  reference_terminal : Nat
  clock_source_str : Nat
  deriving DecidableEq, Repr

/-- `impl TryFrom<&[u8]> for ClockSource3`. -/
def ClockSource3.tryFrom (value : List Nat) : PResult ClockSource3 :=
  if value.length < 9 then .error (Error.newDescriptorLen "ClockSource3" 9 value.length)
  else
    PResult.bind (readAt value 0) fun clock_id =>
    PResult.bind (readAt value 1) fun attributes =>
    PResult.bind (readWordLe value 2 4) fun controls =>
    PResult.bind (readAt value 6) fun reference_terminal =>
    PResult.bind (readWordLe value 7 2) fun clock_source_str =>
      .ok { clock_id := clock_id, attributes := attributes, controls := controls,
            reference_terminal := reference_terminal,
            clock_source_str := clock_source_str }

/-- `impl From<ClockSource3> for Vec<u8>`. -/
def ClockSource3.into (val : ClockSource3) : List Nat :=
  [val.clock_id, val.attributes] ++ toLe32 val.controls ++ [val.reference_terminal]
    ++ toLe16 val.clock_source_str

/-- UAC2: 4.7.2.2 Clock Selector Descriptor (`ClockSelector2`). -/
structure ClockSelector2 where
  clock_id : Nat
  nr_in_pins : Nat
  csource_ids : List Nat
  controls : Nat
  clock_selector_index : Nat
  clock_selector : Option String
  deriving DecidableEq, Repr

/-- `impl TryFrom<&[u8]> for ClockSelector2`. -/
def ClockSelector2.tryFrom (value : List Nat) : PResult ClockSelector2 :=
  if value.length < 4 then .error (Error.newDescriptorLen "ClockSelector2" 4 value.length)
  else
    PResult.bind (readAt value 1) fun b1 =>
      let nr_in_pins := b1
      let expected_length := 4 + nr_in_pins
      if value.length < expected_length then
        .error (Error.new .invalidDescriptor
          "ClockSelector2 descriptor too short for the number of pins and controls")
      else
        PResult.bind (sliceRange value 2 (2 + nr_in_pins)) fun csource_ids =>
        PResult.bind (readAt value 0) fun clock_id =>
        PResult.bind (readAt value (2 + nr_in_pins)) fun controls =>
        PResult.bind (readAt value (3 + nr_in_pins)) fun clock_selector_index =>
          .ok { clock_id := clock_id, nr_in_pins := b1, csource_ids := csource_ids,
                controls := controls, clock_selector_index := clock_selector_index,
                clock_selector := none }

/-- `impl From<ClockSelector2> for Vec<u8>`. -/
def ClockSelector2.into (val : ClockSelector2) : List Nat :=
  [val.clock_id, val.nr_in_pins] ++ val.csource_ids
    ++ [val.controls, val.clock_selector_index]

/-- UAC3: 4.5.2.13 Clock Selector Descriptor (`ClockSelector3`). -/
structure ClockSelector3 where
  clock_id : Nat
  nr_in_pins : Nat
  csource_ids : List Nat
  controls : Nat
  cselector_descr_str : Nat
  deriving DecidableEq, Repr

/-- `impl TryFrom<&[u8]> for ClockSelector3`. -/
def ClockSelector3.tryFrom (value : List Nat) : PResult ClockSelector3 :=
  if value.length < 8 then .error (Error.newDescriptorLen "ClockSelector3" 8 value.length)
  else
    PResult.bind (readAt value 1) fun b1 =>
      let nr_in_pins := b1
      let expected_length := 8 + nr_in_pins
      if value.length < expected_length then
        .error (Error.new .invalidDescriptor
          "ClockSelector3 descriptor too short for the number of pins and controls")
      else
        PResult.bind (sliceRange value 2 (2 + nr_in_pins)) fun csource_ids =>
        PResult.bind (readWordLe value (2 + nr_in_pins) 4) fun controls =>
        PResult.bind (readAt value 0) fun clock_id =>
        PResult.bind (readWordLe value (6 + nr_in_pins) 2) fun cselector_descr_str =>
          .ok { clock_id := clock_id, nr_in_pins := b1, csource_ids := csource_ids,
                controls := controls, cselector_descr_str := cselector_descr_str }

/-- `impl From<ClockSelector3> for Vec<u8>`. -/
def ClockSelector3.into (val : ClockSelector3) : List Nat :=
  [val.clock_id, val.nr_in_pins] ++ val.csource_ids ++ toLe32 val.controls
    ++ toLe16 val.cselector_descr_str

/-- UAC2: 4.7.2.3 Clock Multiplier Descriptor (`ClockMultiplier2`). -/
structure ClockMultiplier2 where
  clock_id : Nat
  csource_id : Nat
  controls : Nat
  clock_multiplier_index : Nat
  clock_multiplier : Option String
  deriving DecidableEq, Repr

/-- `impl TryFrom<&[u8]> for ClockMultiplier2`. -/
def ClockMultiplier2.tryFrom (value : List Nat) : PResult ClockMultiplier2 :=
  if value.length < 4 then .error (Error.newDescriptorLen "ClockMultiplier2" 4 value.length)
  else
    PResult.bind (readAt value 0) fun clock_id =>
    PResult.bind (readAt value 1) fun csource_id =>
    PResult.bind (readAt value 2) fun controls =>
    PResult.bind (readAt value 3) fun clock_multiplier_index =>
      .ok { clock_id := clock_id, csource_id := csource_id, controls := controls,
            clock_multiplier_index := clock_multiplier_index, clock_multiplier := none }

/-- `impl From<ClockMultiplier2> for Vec<u8>`. -/
def ClockMultiplier2.into (val : ClockMultiplier2) : List Nat :=
  [val.clock_id, val.csource_id, val.controls, val.clock_multiplier_index]

/-- UAC3: 4.5.2.14 Clock Multiplier Descriptor (`ClockMultiplier3`). -/
structure ClockMultiplier3 where
  clock_id : Nat
  csource_id : Nat
  controls : Nat
  cmultiplier_descr_str : Nat
  deriving DecidableEq, Repr

/-- `impl TryFrom<&[u8]> for ClockMultiplier3`. -/
def ClockMultiplier3.tryFrom (value : List Nat) : PResult ClockMultiplier3 :=
  if value.length < 8 then .error (Error.newDescriptorLen "ClockMultiplier3" 8 value.length)
  else
    PResult.bind (readAt value 0) fun clock_id =>
    PResult.bind (readAt value 1) fun csource_id =>
    PResult.bind (readWordLe value 2 4) fun controls =>
    PResult.bind (readWordLe value 6 2) fun cmultiplier_descr_str =>
      .ok { clock_id := clock_id, csource_id := csource_id, controls := controls,
            cmultiplier_descr_str := cmultiplier_descr_str }

/-- `impl From<ClockMultiplier3> for Vec<u8>`. -/
def ClockMultiplier3.into (val : ClockMultiplier3) : List Nat :=
  [val.clock_id, val.csource_id] ++ toLe32 val.controls ++ toLe16 val.cmultiplier_descr_str

/-- UAC2: 4.7.2.9 Sampling Rate Converter Descriptor. -/
structure SampleRateConverter2 where
  unit_id : Nat
  source_id : Nat
  csource_in_id : Nat
  csource_out_id : Nat
  src_index : Nat
  src : Option String
  deriving DecidableEq, Repr

/-- `impl TryFrom<&[u8]> for SampleRateConverter2`. -/
def SampleRateConverter2.tryFrom (value : List Nat) : PResult SampleRateConverter2 :=
  if value.length < 5 then
    .error (Error.newDescriptorLen "SampleRateConverter2" 5 value.length)
  else
    PResult.bind (readAt value 0) fun unit_id =>
    PResult.bind (readAt value 1) fun source_id =>
    PResult.bind (readAt value 2) fun csource_in_id =>
    PResult.bind (readAt value 3) fun csource_out_id =>
    PResult.bind (readAt value 4) fun src_index =>
      .ok { unit_id := unit_id, source_id := source_id, csource_in_id := csource_in_id,
            csource_out_id := csource_out_id, src_index := src_index, src := none }

/-- `impl From<SampleRateConverter2> for Vec<u8>`. -/
def SampleRateConverter2.into (val : SampleRateConverter2) : List Nat :=
  [val.unit_id, val.source_id, val.csource_in_id, val.csource_out_id, val.src_index]

/-- UAC3: 4.5.2.8 Sampling Rate Converter Descriptor. -/
structure SampleRateConverter3 where
  unit_id : Nat
  source_id : Nat
  csource_in_id : Nat
  csource_out_id : Nat
  src_descr_str : Nat
  deriving DecidableEq, Repr

/-- `impl TryFrom<&[u8]> for SampleRateConverter3`. -/
def SampleRateConverter3.tryFrom (value : List Nat) : PResult SampleRateConverter3 :=
  if value.length < 6 then
    .error (Error.newDescriptorLen "SampleRateConverter3" 6 value.length)
  else
    PResult.bind (readAt value 0) fun unit_id =>
    PResult.bind (readAt value 1) fun source_id =>
    PResult.bind (readAt value 2) fun csource_in_id =>
    PResult.bind (readAt value 3) fun csource_out_id =>
    PResult.bind (readWordLe value 4 2) fun src_descr_str =>
      .ok { unit_id := unit_id, source_id := source_id, csource_in_id := csource_in_id,
            csource_out_id := csource_out_id, src_descr_str := src_descr_str }

/-- `impl From<SampleRateConverter3> for Vec<u8>`. -/
def SampleRateConverter3.into (val : SampleRateConverter3) : List Nat :=
  [val.unit_id, val.source_id, val.csource_in_id, val.csource_out_id]
    ++ toLe16 val.src_descr_str

/-- UAC1 `StreamingInterface1` (AS General). -/
structure StreamingInterface1 where
  terminal_link : Nat
  delay : Nat
  format_tag : Nat
  deriving DecidableEq, Repr

/-- `impl TryFrom<&[u8]> for StreamingInterface1`. -/
def StreamingInterface1.tryFrom (value : List Nat) : PResult StreamingInterface1 :=
  if value.length < 4 then
    .error (Error.newDescriptorLen "StreamingInterface1" 4 value.length)
  else
    PResult.bind (readAt value 0) fun terminal_link =>
    PResult.bind (readAt value 1) fun delay =>
    PResult.bind (readWordLe value 2 2) fun format_tag =>
      .ok { terminal_link := terminal_link, delay := delay, format_tag := format_tag }

/-- `impl From<StreamingInterface1> for Vec<u8>`. -/
def StreamingInterface1.into (val : StreamingInterface1) : List Nat :=
  [val.terminal_link, val.delay] ++ toLe16 val.format_tag

/-- UAC2 `StreamingInterface2` (AS General). -/
structure StreamingInterface2 where
  terminal_link : Nat
  controls : Nat
  format_type : Nat
  formats : Nat
  nr_channels : Nat
  channel_config : Nat
  channel_names_index : Nat
  channel_names : Option String
  deriving DecidableEq, Repr

/-- `impl TryFrom<&[u8]> for StreamingInterface2`. -/
def StreamingInterface2.tryFrom (value : List Nat) : PResult StreamingInterface2 :=
  if value.length < 13 then
    .error (Error.newDescriptorLen "StreamingInterface2" 13 value.length)
  else
    PResult.bind (readAt value 0) fun terminal_link =>
    PResult.bind (readAt value 1) fun controls =>
    PResult.bind (readAt value 2) fun format_type =>
    PResult.bind (readWordLe value 3 4) fun formats =>
    PResult.bind (readAt value 7) fun nr_channels =>
    PResult.bind (readWordLe value 8 4) fun channel_config =>
    PResult.bind (readAt value 12) fun channel_names_index =>
      .ok { terminal_link := terminal_link, controls := controls,
            format_type := format_type, formats := formats, nr_channels := nr_channels,
            channel_config := channel_config,
            channel_names_index := channel_names_index, channel_names := none }

/-- `impl From<StreamingInterface2> for Vec<u8>`. -/
def StreamingInterface2.into (val : StreamingInterface2) : List Nat :=
  [val.terminal_link, val.controls, val.format_type] ++ toLe32 val.formats
    ++ [val.nr_channels] ++ toLe32 val.channel_config ++ [val.channel_names_index]

/-- UAC3 `StreamingInterface3` (AS General). -/
structure StreamingInterface3 where
  terminal_link : Nat
  controls : Nat
  cluster_descr_id : Nat
  formats : Nat
  sub_slot_size : Nat
  bit_resolution : Nat
  aux_protocols : Nat
  control_size : Nat
  deriving DecidableEq, Repr

/-- `impl TryFrom<&[u8]> for StreamingInterface3`. -/
def StreamingInterface3.tryFrom (value : List Nat) : PResult StreamingInterface3 :=
  if value.length < 20 then
    .error (Error.newDescriptorLen "StreamingInterface3" 20 value.length)
  else
    PResult.bind (readAt value 0) fun terminal_link =>
    PResult.bind (readWordLe value 1 4) fun controls =>
    PResult.bind (readWordLe value 5 2) fun cluster_descr_id =>
    PResult.bind (readWordLe value 7 8) fun formats =>
    PResult.bind (readAt value 15) fun sub_slot_size =>
    PResult.bind (readAt value 16) fun bit_resolution =>
    PResult.bind (readWordLe value 17 2) fun aux_protocols =>
    PResult.bind (readAt value 19) fun control_size =>
      .ok { terminal_link := terminal_link, controls := controls,
            cluster_descr_id := cluster_descr_id, formats := formats,
            sub_slot_size := sub_slot_size, bit_resolution := bit_resolution,
            aux_protocols := aux_protocols, control_size := control_size }

/-- `impl From<StreamingInterface3> for Vec<u8>`. -/
def StreamingInterface3.into (val : StreamingInterface3) : List Nat :=
  val.terminal_link :: (toLe32 val.controls ++ toLe16 val.cluster_descr_id
    ++ toLe64 val.formats ++ [val.sub_slot_size, val.bit_resolution]
    ++ toLe16 val.aux_protocols ++ [val.control_size])

/-- Isochronous Audio Data Stream Endpoint for UAC1. -/
structure DataStreamingEndpoint1 where
  attributes : Nat
  lock_delay_units : Nat
  lock_delay : Nat
  deriving DecidableEq, Repr

/-- `DataStreamingEndpoint1::EXPECTED_LENGTH`. -/
def DataStreamingEndpoint1.size : Nat := 4

/-- `impl TryFrom<&[u8]> for DataStreamingEndpoint1`. -/
def DataStreamingEndpoint1.tryFrom (value : List Nat) : PResult DataStreamingEndpoint1 :=
  if value.length < DataStreamingEndpoint1.size then
    .error (Error.newDescriptorLen "DataStreamingEndpoint1" DataStreamingEndpoint1.size
      value.length)
  else
    PResult.bind (readAt value 0) fun attributes =>
    PResult.bind (readAt value 1) fun lock_delay_units =>
    PResult.bind (readWordLe value 2 2) fun lock_delay =>
      .ok { attributes := attributes, lock_delay_units := lock_delay_units,
            lock_delay := lock_delay }

/-- `impl From<DataStreamingEndpoint1> for Vec<u8>`. -/
def DataStreamingEndpoint1.into (val : DataStreamingEndpoint1) : List Nat :=
  [val.attributes, val.lock_delay_units] ++ toLe16 val.lock_delay

/-- Isochronous Audio Data Stream Endpoint for UAC2. -/
structure DataStreamingEndpoint2 where
  attributes : Nat
  controls : Nat
  lock_delay_units : Nat
  lock_delay : Nat
  deriving DecidableEq, Repr

/-- `DataStreamingEndpoint2::EXPECTED_LENGTH`. -/
def DataStreamingEndpoint2.size : Nat := 5

/-- `impl TryFrom<&[u8]> for DataStreamingEndpoint2`. -/
def DataStreamingEndpoint2.tryFrom (value : List Nat) : PResult DataStreamingEndpoint2 :=
  if value.length < DataStreamingEndpoint2.size then
    .error (Error.newDescriptorLen "DataStreamingEndpoint2" DataStreamingEndpoint2.size
      value.length)
  else
    PResult.bind (readAt value 0) fun attributes =>
    PResult.bind (readAt value 1) fun controls =>
    PResult.bind (readAt value 2) fun lock_delay_units =>
    PResult.bind (readWordLe value 3 2) fun lock_delay =>
      .ok { attributes := attributes, controls := controls,
            lock_delay_units := lock_delay_units, lock_delay := lock_delay }

/-- `impl From<DataStreamingEndpoint2> for Vec<u8>`. -/
def DataStreamingEndpoint2.into (val : DataStreamingEndpoint2) : List Nat :=
  [val.attributes, val.controls, val.lock_delay_units] ++ toLe16 val.lock_delay

/-- Isochronous Audio Data Stream Endpoint for UAC3. -/
structure DataStreamingEndpoint3 where
  controls : Nat
  lock_delay_units : Nat
  lock_delay : Nat
  deriving DecidableEq, Repr

/-- `DataStreamingEndpoint3::EXPECTED_LENGTH`. -/
def DataStreamingEndpoint3.size : Nat := 7

/-- `impl TryFrom<&[u8]> for DataStreamingEndpoint3`. -/
def DataStreamingEndpoint3.tryFrom (value : List Nat) : PResult DataStreamingEndpoint3 :=
  if value.length < DataStreamingEndpoint3.size then
    .error (Error.newDescriptorLen "DataStreamingEndpoint3" DataStreamingEndpoint3.size
      value.length)
  else
    PResult.bind (readWordLe value 0 4) fun controls =>
    PResult.bind (readAt value 4) fun lock_delay_units =>
    PResult.bind (readWordLe value 5 2) fun lock_delay =>
      .ok { controls := controls, lock_delay_units := lock_delay_units,
            lock_delay := lock_delay }

/-- `impl From<DataStreamingEndpoint3> for Vec<u8>`. -/
def DataStreamingEndpoint3.into (val : DataStreamingEndpoint3) : List Nat :=
  toLe32 val.controls ++ [val.lock_delay_units] ++ toLe16 val.lock_delay

/-- The `for i in 0..b` discrete-sample-frequency loop of
`FormatTypeI1::try_from` / `FormatTypeII1::try_from`: each iteration
re-checks the remaining length before the three-byte read. -/
def discreteFreqLoop (value : List Nat) (base : Nat) : Nat → Nat → PResult (List Nat)
  | 0, _ => .ok []
  | n + 1, i =>
    let index := base + i * 3
    if value.length < index + 3 then
      .error (Error.new .invalidDescriptor
        "Descriptor too short for discrete sample frequency")
    else
      PResult.bind (readWordLe value index 3) fun w =>
      PResult.bind (discreteFreqLoop value base n (i + 1)) fun ws => .ok (w :: ws)

/-- UAC1 Type I format (`FormatTypeI1`). -/
structure FormatTypeI1 where
  num_channels : Nat
  subframe_size : Nat
  bit_resolution : Nat
  sample_frequency_type : SampleFrequencyType
  sample_frequencies : List Nat
  deriving DecidableEq, Repr

/-- `impl TryFrom<&[u8]> for FormatTypeI1`. -/
def FormatTypeI1.tryFrom (value : List Nat) : PResult FormatTypeI1 :=
  if value.length < 4 then .error (Error.newDescriptorLen "FormatTypeI" 4 value.length)
  else
    PResult.bind (readAt value 0) fun nr_channels =>
    PResult.bind (readAt value 1) fun subframe_size =>
    PResult.bind (readAt value 2) fun bit_resolution =>
    PResult.bind (readAt value 3) fun b3 =>
      let sam_freq_type := SampleFrequencyType.fromU8 b3
      PResult.bind
        (match sam_freq_type with
          | .Continuous =>
            if value.length < 10 then
              .error (Error.new .invalidDescriptor
                "Descriptor too short for continuous sample frequency")
            else
              PResult.bind (readWordLe value 4 3) fun lo =>
              PResult.bind (readWordLe value 7 3) fun hi => .ok [lo, hi]
          | .Discrete b => discreteFreqLoop value 4 b 0) fun sam_freqs =>
        .ok { num_channels := nr_channels, subframe_size := subframe_size,
              bit_resolution := bit_resolution, sample_frequency_type := sam_freq_type,
              sample_frequencies := sam_freqs }

/-- `impl From<FormatTypeI1> for Vec<u8>` (each stored frequency is
re-encoded as the full four `u32` bytes). -/
def FormatTypeI1.into (val : FormatTypeI1) : List Nat :=
  [val.num_channels, val.subframe_size, val.bit_resolution,
    val.sample_frequency_type.toU8] ++ (val.sample_frequencies.map toLe32).flatten

/-- UAC1 Type II format (`FormatTypeII1`). -/
structure FormatTypeII1 where
  max_bit_rate : Nat
  samples_per_frame : Nat
  sample_frequency_type : SampleFrequencyType
  sample_frequencies : List Nat
  deriving DecidableEq, Repr

/-- `impl TryFrom<&[u8]> for FormatTypeII1`. -/
def FormatTypeII1.tryFrom (value : List Nat) : PResult FormatTypeII1 :=
  if value.length < 5 then .error (Error.newDescriptorLen "FormatTypeII" 5 value.length)
  else
    PResult.bind (readWordLe value 0 2) fun max_bit_rate =>
    PResult.bind (readWordLe value 2 2) fun samples_per_frame =>
    PResult.bind (readAt value 4) fun b4 =>
      let sam_freq_type := SampleFrequencyType.fromU8 b4
      PResult.bind
        (match sam_freq_type with
          | .Continuous =>
            if value.length < 11 then
              .error (Error.new .invalidDescriptor
                "Descriptor too short for continuous sample frequency")
            else
              PResult.bind (readWordLe value 5 3) fun lo =>
              PResult.bind (readWordLe value 8 3) fun hi => .ok [lo, hi]
          | .Discrete b => discreteFreqLoop value 5 b 0) fun sam_freqs =>
        .ok { max_bit_rate := max_bit_rate, samples_per_frame := samples_per_frame,
              sample_frequency_type := sam_freq_type, sample_frequencies := sam_freqs }

/-- `impl From<FormatTypeII1> for Vec<u8>`. -/
def FormatTypeII1.into (val : FormatTypeII1) : List Nat :=
  toLe16 val.max_bit_rate ++ toLe16 val.samples_per_frame
    ++ [val.sample_frequency_type.toU8] ++ (val.sample_frequencies.map toLe32).flatten

/-- UAC1 Type III format (`FormatTypeIII1`): validates the whole expected
length up front (checked `get(4)` for the frequency-type byte), then reads
without further checks. -/
structure FormatTypeIII1 where
  num_channels : Nat
  subframe_size : Nat
  bit_resolution : Nat
  sample_frequency_type : SampleFrequencyType
  sample_frequencies : List Nat
  deriving DecidableEq, Repr

/-- `impl TryFrom<&[u8]> for FormatTypeIII1`. -/
def FormatTypeIII1.tryFrom (value : List Nat) : PResult FormatTypeIII1 :=
  PResult.bind
    (readChecked value 4 (Error.newDescriptorLen "FormatTypeIII" 4 value.length)) fun b4 =>
    let sam_freq_type := SampleFrequencyType.fromU8 b4
    let expected_len :=
      match sam_freq_type with
      | .Continuous => 10
      | .Discrete b => 4 + b * 3
    if value.length < expected_len then
      .error (Error.newDescriptorLen "FormatTypeIII" expected_len value.length)
    else
      PResult.bind (readAt value 0) fun nr_channels =>
      PResult.bind (readAt value 1) fun subframe_size =>
      PResult.bind (readAt value 2) fun bit_resolution =>
      PResult.bind
        (match sam_freq_type with
          | .Continuous =>
            PResult.bind (readWordLe value 4 3) fun lo =>
            PResult.bind (readWordLe value 7 3) fun hi => .ok [lo, hi]
          | .Discrete b =>
            readWordsLe value 3 ((List.range b).map fun i => 4 + i * 3)) fun sam_freqs =>
        .ok { num_channels := nr_channels, subframe_size := subframe_size,
              bit_resolution := bit_resolution, sample_frequency_type := sam_freq_type,
              sample_frequencies := sam_freqs }

/-- `impl From<FormatTypeIII1> for Vec<u8>`. -/
def FormatTypeIII1.into (val : FormatTypeIII1) : List Nat :=
  [val.num_channels, val.subframe_size, val.bit_resolution,
    val.sample_frequency_type.toU8] ++ (val.sample_frequencies.map toLe32).flatten

/-- UAC2 Type I format (`FormatTypeI2`). -/
structure FormatTypeI2 where
  sub_slot_size : Nat
  bit_resolution : Nat
  deriving DecidableEq, Repr

/-- `impl TryFrom<&[u8]> for FormatTypeI2`. -/
def FormatTypeI2.tryFrom (value : List Nat) : PResult FormatTypeI2 :=
  if value.length < 2 then .error (Error.newDescriptorLen "FormatTypeI2" 2 value.length)
  else
    PResult.bind (readAt value 0) fun sub_slot_size =>
    PResult.bind (readAt value 1) fun bit_resolution =>
      .ok { sub_slot_size := sub_slot_size, bit_resolution := bit_resolution }

/-- `impl From<FormatTypeI2> for Vec<u8>`. -/
def FormatTypeI2.into (val : FormatTypeI2) : List Nat :=
  [val.sub_slot_size, val.bit_resolution]

/-- UAC2 Type II format (`FormatTypeII2`). -/
structure FormatTypeII2 where
  max_bit_rate : Nat
  slots_per_frame : Nat
  deriving DecidableEq, Repr

/-- `impl TryFrom<&[u8]> for FormatTypeII2`. -/
def FormatTypeII2.tryFrom (value : List Nat) : PResult FormatTypeII2 :=
  if value.length < 4 then .error (Error.newDescriptorLen "FormatTypeII2" 4 value.length)
  else
    PResult.bind (readWordLe value 0 2) fun max_bit_rate =>
    PResult.bind (readWordLe value 2 2) fun slots_per_frame =>
      .ok { max_bit_rate := max_bit_rate, slots_per_frame := slots_per_frame }

/-- `impl From<FormatTypeII2> for Vec<u8>`. -/
def FormatTypeII2.into (val : FormatTypeII2) : List Nat :=
  toLe16 val.max_bit_rate ++ toLe16 val.slots_per_frame

/-- `pub type FormatTypeIII2 = FormatTypeI2;`. -/
abbrev FormatTypeIII2 := FormatTypeI2

/-- MPEG format-specific descriptor (`FormatSpecificMpeg`). -/
structure FormatSpecificMpeg where
  mpeg_capabilities : Nat
  mpeg_features : Nat
  deriving DecidableEq, Repr

/-- `impl TryFrom<&[u8]> for FormatSpecificMpeg`. -/
def FormatSpecificMpeg.tryFrom (value : List Nat) : PResult FormatSpecificMpeg :=
  if value.length < 3 then
    .error (Error.newDescriptorLen "FormatSpecificMpeg" 3 value.length)
  else
    PResult.bind (readWordLe value 0 2) fun mpeg_capabilities =>
    PResult.bind (readAt value 2) fun mpeg_features =>
      .ok { mpeg_capabilities := mpeg_capabilities, mpeg_features := mpeg_features }

/-- `impl From<FormatSpecificMpeg> for Vec<u8>` (the source pushes the
features byte first, then the capabilities word). -/
def FormatSpecificMpeg.into (val : FormatSpecificMpeg) : List Nat :=
  val.mpeg_features :: toLe16 val.mpeg_capabilities

/-- AC-3 format-specific descriptor (`FormatSpecificAc3`). -/
structure FormatSpecificAc3 where
  bsid : Nat
  ac3_features : Nat
  deriving DecidableEq, Repr

/-- `impl TryFrom<&[u8]> for FormatSpecificAc3`. -/
def FormatSpecificAc3.tryFrom (value : List Nat) : PResult FormatSpecificAc3 :=
  if value.length < 5 then
    .error (Error.newDescriptorLen "FormatSpecificAc3" 5 value.length)
  else
    PResult.bind (readWordLe value 0 4) fun bsid =>
    PResult.bind (readAt value 4) fun ac3_features =>
      .ok { bsid := bsid, ac3_features := ac3_features }

/-- `impl From<FormatSpecificAc3> for Vec<u8>`. -/
def FormatSpecificAc3.into (val : FormatSpecificAc3) : List Nat :=
  toLe32 val.bsid ++ [val.ac3_features]

/-- `StreamingFormatInterface`: the inner union of a streaming format
descriptor. -/
inductive StreamingFormatInterface where
  | FormatTypeI1 (v : FormatTypeI1)
  | FormatTypeII1 (v : FormatTypeII1)
  | FormatTypeIII1 (v : FormatTypeIII1)
  | FormatTypeI2 (v : FormatTypeI2)
  | FormatTypeII2 (v : FormatTypeII2)
  | FormatTypeIII2 (v : FormatTypeIII2)
  | FormatSpecificMpeg (v : FormatSpecificMpeg)
  | FormatSpecificAc3 (v : FormatSpecificAc3)
  | Invalid (data : List Nat)
  | Undefined (data : List Nat)
  deriving DecidableEq, Repr

/-- `impl From<StreamingFormatInterface> for Vec<u8>`. -/
def StreamingFormatInterface.into : StreamingFormatInterface → List Nat
  | .FormatTypeI1 v => v.into
  | .FormatTypeII1 v => v.into
  | .FormatTypeIII1 v => v.into
  | .FormatTypeI2 v => v.into
  | .FormatTypeII2 v => v.into
  | .FormatTypeIII2 v => v.into
  | .FormatSpecificMpeg v => v.into
  | .FormatSpecificAc3 v => v.into
  | .Invalid data => data
  | .Undefined data => data

/-- `StreamingFormat`: format-type byte plus inner format. -/
structure StreamingFormat where
  format_type : StreamingFormatType
  interface : StreamingFormatInterface
  deriving DecidableEq, Repr

/-- `StreamingFormat::from_uac_as_interface`. -/
def StreamingFormat.fromUacAsInterface (protocol : UacProtocol) (data : List Nat) :
    PResult StreamingFormat :=
  if data.length = 0 then .error (Error.newDescriptorLen "StreamingFormat" 1 data.length)
  else
    PResult.bind (readAt data 0) fun b0 =>
      let format_type := StreamingFormatType.fromU8 b0
      PResult.bind (sliceFrom data 1) fun tail =>
        match protocol with
        | .Uac1 =>
          match format_type with
          | .TypeI =>
            PResult.map
              (fun ft => { format_type := format_type,
                           interface := StreamingFormatInterface.FormatTypeI1 ft })
              (FormatTypeI1.tryFrom tail)
          | .TypeII =>
            PResult.map
              (fun ft => { format_type := format_type,
                           interface := StreamingFormatInterface.FormatTypeII1 ft })
              (FormatTypeII1.tryFrom tail)
          | .TypeIII =>
            PResult.map
              (fun ft => { format_type := format_type,
                           interface := StreamingFormatInterface.FormatTypeIII1 ft })
              (FormatTypeIII1.tryFrom tail)
          | _ =>
            .ok { format_type := format_type,
                  interface := StreamingFormatInterface.Undefined tail }
        | .Uac2 =>
          match format_type with
          | .TypeI =>
            PResult.map
              (fun ft => { format_type := format_type,
                           interface := StreamingFormatInterface.FormatTypeI2 ft })
              (FormatTypeI2.tryFrom tail)
          | .TypeII =>
            PResult.map
              (fun ft => { format_type := format_type,
                           interface := StreamingFormatInterface.FormatTypeII2 ft })
              (FormatTypeII2.tryFrom tail)
          | .TypeIII =>
            PResult.map
              (fun ft => { format_type := format_type,
                           interface := StreamingFormatInterface.FormatTypeIII2 ft })
              (FormatTypeI2.tryFrom tail)
          | _ =>
            .ok { format_type := format_type,
                  interface := StreamingFormatInterface.Undefined tail }
        | _ =>
          .ok { format_type := format_type,
                interface := StreamingFormatInterface.Invalid tail }

/-- `impl From<StreamingFormat> for Vec<u8>`. -/
def StreamingFormat.into (sf : StreamingFormat) : List Nat :=
  sf.format_type.toU8 :: sf.interface.into

/-- `StreamingFormatSpecific`: format tag plus inner format. -/
structure StreamingFormatSpecific where
  format_tag : Nat
  interface : StreamingFormatInterface
  deriving DecidableEq, Repr

/-- `impl TryFrom<&[u8]> for StreamingFormatSpecific` (also
`StreamingFormatSpecific::from_uac_as_interface`, which ignores the
protocol). -/
def StreamingFormatSpecific.tryFrom (value : List Nat) : PResult StreamingFormatSpecific :=
  if value.length < 2 then
    .error (Error.newDescriptorLen "StreamingFormatSpecific" 2 value.length)
  else
    PResult.bind (readWordLe value 0 2) fun format_tag =>
    PResult.bind (sliceFrom value 2) fun tail =>
    PResult.bind
      (if format_tag = 0x1001 then
        PResult.map StreamingFormatInterface.FormatSpecificMpeg
          (FormatSpecificMpeg.tryFrom tail)
      else if format_tag = 0x1002 then
        PResult.map StreamingFormatInterface.FormatSpecificAc3
          (FormatSpecificAc3.tryFrom tail)
      else .ok (StreamingFormatInterface.Undefined tail)) fun format =>
      .ok { format_tag := format_tag, interface := format }

/-- `impl From<StreamingFormatSpecific> for Vec<u8>`. -/
def StreamingFormatSpecific.into (sfs : StreamingFormatSpecific) : List Nat :=
  toLe16 sfs.format_tag ++ sfs.interface.into

/-- `UacInterfaceDescriptor`: one variant per concrete UAC shape, plus the
`Invalid` / `Generic` / `Undefined` raw-byte fallbacks. -/
inductive UacInterfaceDescriptor where
  | Header1 (v : Header1)
  | Header2 (v : Header2)
  | Header3 (v : Header3)
  | InputTerminal1 (v : InputTerminal1)
  | InputTerminal2 (v : InputTerminal2)
  | InputTerminal3 (v : InputTerminal3)
  | OutputTerminal1 (v : OutputTerminal1)
  | OutputTerminal2 (v : OutputTerminal2)
  | OutputTerminal3 (v : OutputTerminal3)
  | ExtendedTerminalHeader (v : ExtendedTerminalHeader)
  | PowerDomain (v : PowerDomain)
  | MixerUnit1 (v : MixerUnit1)
  | MixerUnit2 (v : MixerUnit2)
  | MixerUnit3 (v : MixerUnit3)
  | SelectorUnit1 (v : SelectorUnit1)
  | SelectorUnit2 (v : SelectorUnit2)
  | SelectorUnit3 (v : SelectorUnit3)
  | ProcessingUnit1 (v : ProcessingUnit1)
  | ProcessingUnit2 (v : ProcessingUnit2)
  | ProcessingUnit3 (v : ProcessingUnit3)
  | EffectUnit2 (v : EffectUnit2)
  | EffectUnit3 (v : EffectUnit3)
  | FeatureUnit1 (v : FeatureUnit1)
  | FeatureUnit2 (v : FeatureUnit2)
  | FeatureUnit3 (v : FeatureUnit3)
  | ExtensionUnit1 (v : ExtensionUnit1)
  | ExtensionUnit2 (v : ExtensionUnit2)
  | ExtensionUnit3 (v : ExtensionUnit3)
  | ClockSource2 (v : ClockSource2)
  | ClockSource3 (v : ClockSource3)
  | ClockSelector2 (v : ClockSelector2)
  | ClockSelector3 (v : ClockSelector3)
  | ClockMultiplier2 (v : ClockMultiplier2)
  | ClockMultiplier3 (v : ClockMultiplier3)
  | SampleRateConverter2 (v : SampleRateConverter2)
  | SampleRateConverter3 (v : SampleRateConverter3)
  | StreamingInterface1 (v : StreamingInterface1)
  | StreamingInterface2 (v : StreamingInterface2)
  | StreamingInterface3 (v : StreamingInterface3)
  | StreamingFormat (v : StreamingFormat)
  | StreamingFormatSpecific (v : StreamingFormatSpecific)
  | DataStreamingEndpoint1 (v : DataStreamingEndpoint1)
  | DatastreamingEndpoint2 (v : DataStreamingEndpoint2)
  | DataStreamingEndpoint3 (v : DataStreamingEndpoint3)
  | Invalid (data : List Nat)
  | Generic (data : List Nat)
  | Undefined (data : List Nat)
  deriving DecidableEq, Repr

/-- `impl From<UacInterfaceDescriptor> for Vec<u8>`. -/
def UacInterfaceDescriptor.into : UacInterfaceDescriptor → List Nat
  | .Header1 a => a.into
  | .Header2 a => a.into
  | .Header3 a => a.into
  | .InputTerminal1 a => a.into
  | .InputTerminal2 a => a.into
  | .InputTerminal3 a => a.into
  | .OutputTerminal1 a => a.into
  | .OutputTerminal2 a => a.into
  | .OutputTerminal3 a => a.into
  | .ExtendedTerminalHeader a => a.into
  | .PowerDomain a => a.into
  | .MixerUnit1 a => a.into
  | .MixerUnit2 a => a.into
  | .MixerUnit3 a => a.into
  | .SelectorUnit1 a => a.into
  | .SelectorUnit2 a => a.into
  | .SelectorUnit3 a => a.into
  | .ProcessingUnit1 a => a.into
  | .ProcessingUnit2 a => a.into
  | .ProcessingUnit3 a => a.into
  | .EffectUnit2 a => a.into
  | .EffectUnit3 a => a.into
  | .FeatureUnit1 a => a.into
  | .FeatureUnit2 a => a.into
  | .FeatureUnit3 a => a.into
  | .ExtensionUnit1 a => a.into
  | .ExtensionUnit2 a => a.into
  | .ExtensionUnit3 a => a.into
  | .ClockSource2 a => a.into
  | .ClockSource3 a => a.into
  | .ClockSelector2 a => a.into
  | .ClockSelector3 a => a.into
  | .ClockMultiplier2 a => a.into
  | .ClockMultiplier3 a => a.into
  | .SampleRateConverter2 a => a.into
  | .SampleRateConverter3 a => a.into
  | .StreamingInterface1 a => a.into
  | .StreamingInterface2 a => a.into
  | .StreamingInterface3 a => a.into
  | .StreamingFormat a => a.into
  | .StreamingFormatSpecific a => a.into
  | .DataStreamingEndpoint1 a => a.into
  | .DatastreamingEndpoint2 a => a.into
  | .DataStreamingEndpoint3 a => a.into
  | .Invalid a => a
  | .Generic a => a
  | .Undefined a => a

/-- `UacInterfaceDescriptor::from_uac_ac_interface`: protocol-dependent
dispatch of an Audio Control subtype to its typed decoder.  Recognised
subtypes whose protocol has no decoder yield `Invalid`; the `Undefined`
subtype yields `Undefined`; any remaining subtype (only `Connectors`)
falls to the catch-all `Generic` arm. -/
def UacInterfaceDescriptor.fromUacAcInterface (uac_interface : ControlSubtype)
    (protocol : UacProtocol) (data : List Nat) : PResult UacInterfaceDescriptor :=
  match uac_interface with
  | .Header =>
    match protocol with
    | .Uac1 => PResult.map UacInterfaceDescriptor.Header1 (Header1.tryFrom data)
    | .Uac2 => PResult.map UacInterfaceDescriptor.Header2 (Header2.tryFrom data)
    | .Uac3 => PResult.map UacInterfaceDescriptor.Header3 (Header3.tryFrom data)
    | _ => .ok (.Invalid data)
  | .InputTerminal =>
    match protocol with
    | .Uac1 => PResult.map UacInterfaceDescriptor.InputTerminal1 (InputTerminal1.tryFrom data)
    | .Uac2 => PResult.map UacInterfaceDescriptor.InputTerminal2 (InputTerminal2.tryFrom data)
    | .Uac3 => PResult.map UacInterfaceDescriptor.InputTerminal3 (InputTerminal3.tryFrom data)
    | _ => .ok (.Invalid data)
  | .OutputTerminal =>
    match protocol with
    | .Uac1 =>
      PResult.map UacInterfaceDescriptor.OutputTerminal1 (OutputTerminal1.tryFrom data)
    | .Uac2 =>
      PResult.map UacInterfaceDescriptor.OutputTerminal2 (OutputTerminal2.tryFrom data)
    | .Uac3 =>
      PResult.map UacInterfaceDescriptor.OutputTerminal3 (OutputTerminal3.tryFrom data)
    | _ => .ok (.Invalid data)
  | .ExtendedTerminal =>
    match protocol with
    | .Uac3 =>
      PResult.map UacInterfaceDescriptor.ExtendedTerminalHeader
        (ExtendedTerminalHeader.tryFrom data)
    | _ => .ok (.Invalid data)
  | .PowerDomain =>
    match protocol with
    | .Uac3 => PResult.map UacInterfaceDescriptor.PowerDomain (PowerDomain.tryFrom data)
    | _ => .ok (.Invalid data)
  | .MixerUnit =>
    match protocol with
    | .Uac1 => PResult.map UacInterfaceDescriptor.MixerUnit1 (MixerUnit1.tryFrom data)
    | .Uac2 => PResult.map UacInterfaceDescriptor.MixerUnit2 (MixerUnit2.tryFrom data)
    | .Uac3 => PResult.map UacInterfaceDescriptor.MixerUnit3 (MixerUnit3.tryFrom data)
    | _ => .ok (.Invalid data)
  | .SelectorUnit =>
    match protocol with
    | .Uac1 => PResult.map UacInterfaceDescriptor.SelectorUnit1 (SelectorUnit1.tryFrom data)
    | .Uac2 => PResult.map UacInterfaceDescriptor.SelectorUnit2 (SelectorUnit2.tryFrom data)
    | .Uac3 => PResult.map UacInterfaceDescriptor.SelectorUnit3 (SelectorUnit3.tryFrom data)
    | _ => .ok (.Invalid data)
  | .ProcessingUnit =>
    match protocol with
    | .Uac1 =>
      PResult.map UacInterfaceDescriptor.ProcessingUnit1 (ProcessingUnit1.tryFrom data)
    | .Uac2 =>
      PResult.map UacInterfaceDescriptor.ProcessingUnit2 (ProcessingUnit2.tryFrom data)
    | .Uac3 =>
      PResult.map UacInterfaceDescriptor.ProcessingUnit3 (ProcessingUnit3.tryFrom data)
    | _ => .ok (.Invalid data)
  | .EffectUnit =>
    match protocol with
    | .Uac2 => PResult.map UacInterfaceDescriptor.EffectUnit2 (EffectUnit2.tryFrom data)
    | .Uac3 => PResult.map UacInterfaceDescriptor.EffectUnit3 (EffectUnit3.tryFrom data)
    | _ => .ok (.Invalid data)
  | .FeatureUnit =>
    match protocol with
    | .Uac1 => PResult.map UacInterfaceDescriptor.FeatureUnit1 (FeatureUnit1.tryFrom data)
    | .Uac2 => PResult.map UacInterfaceDescriptor.FeatureUnit2 (FeatureUnit2.tryFrom data)
    | .Uac3 => PResult.map UacInterfaceDescriptor.FeatureUnit3 (FeatureUnit3.tryFrom data)
    | _ => .ok (.Invalid data)
  | .ExtensionUnit =>
    match protocol with
    | .Uac1 => PResult.map UacInterfaceDescriptor.ExtensionUnit1 (ExtensionUnit1.tryFrom data)
    | .Uac2 => PResult.map UacInterfaceDescriptor.ExtensionUnit2 (ExtensionUnit2.tryFrom data)
    | .Uac3 => PResult.map UacInterfaceDescriptor.ExtensionUnit3 (ExtensionUnit3.tryFrom data)
    | _ => .ok (.Invalid data)
  | .ClockSource =>
    match protocol with
    | .Uac2 => PResult.map UacInterfaceDescriptor.ClockSource2 (ClockSource2.tryFrom data)
    | .Uac3 => PResult.map UacInterfaceDescriptor.ClockSource3 (ClockSource3.tryFrom data)
    | _ => .ok (.Invalid data)
  | .ClockSelector =>
    match protocol with
    | .Uac2 => PResult.map UacInterfaceDescriptor.ClockSelector2 (ClockSelector2.tryFrom data)
    | .Uac3 => PResult.map UacInterfaceDescriptor.ClockSelector3 (ClockSelector3.tryFrom data)
    | _ => .ok (.Invalid data)
  | .ClockMultiplier =>
    match protocol with
    | .Uac2 =>
      PResult.map UacInterfaceDescriptor.ClockMultiplier2 (ClockMultiplier2.tryFrom data)
    | .Uac3 =>
      PResult.map UacInterfaceDescriptor.ClockMultiplier3 (ClockMultiplier3.tryFrom data)
    | _ => .ok (.Invalid data)
  | .SampleRateConverter =>
    match protocol with
    | .Uac2 =>
      PResult.map UacInterfaceDescriptor.SampleRateConverter2
        (SampleRateConverter2.tryFrom data)
    | .Uac3 =>
      PResult.map UacInterfaceDescriptor.SampleRateConverter3
        (SampleRateConverter3.tryFrom data)
    | _ => .ok (.Invalid data)
  | .Undefined => .ok (.Undefined data)
  | _ => .ok (.Generic data)

/-- `UacInterfaceDescriptor::from_uac_as_interface`: dispatch of an Audio
Streaming subtype.  `General` data is length-disambiguated between a data
streaming endpoint and a streaming interface. -/
def UacInterfaceDescriptor.fromUacAsInterface (uac_interface : StreamingSubtype)
    (protocol : UacProtocol) (data : List Nat) : PResult UacInterfaceDescriptor :=
  match uac_interface with
  | .General =>
    match protocol with
    | .Uac1 =>
      if data.length = DataStreamingEndpoint1.size then
        PResult.map UacInterfaceDescriptor.DataStreamingEndpoint1
          (DataStreamingEndpoint1.tryFrom data)
      else
        PResult.map UacInterfaceDescriptor.StreamingInterface1
          (StreamingInterface1.tryFrom data)
    | .Uac2 =>
      if data.length = DataStreamingEndpoint2.size then
        PResult.map UacInterfaceDescriptor.DatastreamingEndpoint2
          (DataStreamingEndpoint2.tryFrom data)
      else
        PResult.map UacInterfaceDescriptor.StreamingInterface2
          (StreamingInterface2.tryFrom data)
    | .Uac3 =>
      if data.length = DataStreamingEndpoint3.size then
        PResult.map UacInterfaceDescriptor.DataStreamingEndpoint3
          (DataStreamingEndpoint3.tryFrom data)
      else
        PResult.map UacInterfaceDescriptor.StreamingInterface3
          (StreamingInterface3.tryFrom data)
    | _ => .ok (.Invalid data)
  | .FormatType =>
    PResult.map UacInterfaceDescriptor.StreamingFormat
      (StreamingFormat.fromUacAsInterface protocol data)
  | .FormatSpecific =>
    PResult.map UacInterfaceDescriptor.StreamingFormatSpecific
      (StreamingFormatSpecific.tryFrom data)
  | .Undefined => .ok (.Undefined data)

/-- `ControlSubtype::get_descriptor` /
`StreamingSubtype::get_descriptor` / `UacType::get_uac_descriptor`: route
a UAC subtype plus raw protocol byte to the matching family decoder; the
MIDI family is not a UAC interface descriptor and yields an error. -/
def UacType.getUacDescriptor (t : UacType) (protocol : Nat) (data : List Nat) :
    PResult UacInterfaceDescriptor :=
  match t with
  | .Control aci =>
    UacInterfaceDescriptor.fromUacAcInterface aci (UacProtocol.fromU8 protocol) data
  | .Streaming asi =>
    UacInterfaceDescriptor.fromUacAsInterface asi (UacProtocol.fromU8 protocol) data
  | .Midi _ =>
    .error (Error.new .invalidArg
      "Midi descriptor to UAC not supported, use MidiInterfaceDescriptor")

/-- Modelled from the spec: `GenericDescriptor`, the raw untyped
intermediate form `(length, descriptor_type, descriptor_subtype, data)`;
the type itself lives in the `usb` descriptors module root, outside
`src/`.  `data` holds the chunk bytes after the three header bytes (absent
when the chunk is shorter than four bytes). -/
structure GenericDescriptor where
  length : Nat
  descriptor_type : Nat
  descriptor_subtype : Nat
  data : Option (List Nat)
  deriving DecidableEq, Repr

/-- Modelled from the spec: `impl TryFrom<&[u8]> for GenericDescriptor` —
byte 0 is the reported length, byte 1 the descriptor type, byte 2 the
subtype, and the remaining bytes the payload.  A chunk shorter than two
bytes, or whose reported length exceeds the buffer, is a length error. -/
def GenericDescriptor.tryFrom (value : List Nat) : PResult GenericDescriptor :=
  if value.length < 2 then
    .error (Error.newDescriptorLen "GenericDescriptor" 2 value.length)
  else
    PResult.bind (readAt value 0) fun length =>
      if value.length < length then
        .error (Error.newDescriptorLen "GenericDescriptor reported" length value.length)
      else
        PResult.bind (readAt value 1) fun descriptor_type =>
          .ok { length := length, descriptor_type := descriptor_type,
                descriptor_subtype := value.getD 2 0,
                data := if 3 ≤ value.length then some (value.drop 3) else none }

/-- Modelled from the spec: `impl From<GenericDescriptor> for Vec<u8>` —
the header bytes followed by the payload verbatim. -/
def GenericDescriptor.into (gd : GenericDescriptor) : List Nat :=
  [gd.length, gd.descriptor_type, gd.descriptor_subtype] ++ gd.data.getD []

/-- `UacType::uac_descriptor_from_generic`: decode the payload of a
generic descriptor; a failed typed decode is demoted to an `Invalid`
descriptor carrying the raw payload, while an absent payload is an
error. -/
def UacType.uacDescriptorFromGeneric (t : UacType) (gd : GenericDescriptor)
    (protocol : Nat) : PResult UacInterfaceDescriptor :=
  match gd.data with
  | some data =>
    match t.getUacDescriptor protocol data with
    | .ok d => .ok d
    | .error _ => .ok (.Invalid data)
    | .panic m => .panic m
  | none => .error (Error.new .invalidArg "GenericDescriptor data is None")

/-- `UacDescriptor`: length/type header, resolved subtype and decoded
interface. -/
structure UacDescriptor where
  length : Nat
  descriptor_type : Nat
  descriptor_subtype : UacType
  interface : UacInterfaceDescriptor
  deriving DecidableEq, Repr

/-- `impl TryFrom<(GenericDescriptor, u8, u8)> for UacDescriptor`: resolve
the subtype under the (sub-class, protocol) context, then decode the
payload. -/
def UacDescriptor.tryFrom (gd : GenericDescriptor) (subc p : Nat) :
    PResult UacDescriptor :=
  PResult.bind (UacType.tryFrom subc gd.descriptor_subtype p) fun descriptor_subtype =>
    PResult.bind (descriptor_subtype.uacDescriptorFromGeneric gd p) fun interface =>
      .ok { length := gd.length, descriptor_type := gd.descriptor_type,
            descriptor_subtype := descriptor_subtype, interface := interface }

/-- `impl From<UacDescriptor> for Vec<u8>`: header bytes, subtype byte,
then the re-encoded interface. -/
def UacDescriptor.into (acd : UacDescriptor) : List Nat :=
  [acd.length, acd.descriptor_type, acd.descriptor_subtype.toU8] ++ acd.interface.into

/-! ## Chunked extra-descriptor reader (`profiler.rs`) -/

/-- Modelled from the spec: the result of `usb::Descriptor::try_from` as
far as the chunk loop observes it — unrecognized bytes are preserved
verbatim in a fallback variant, so the loop only depends on whether the
conversion succeeded.  The type lives in the `usb` module root, outside
`src/`. -/
structure SpecDescriptor where
  bytes : List Nat
  deriving DecidableEq, Repr

/-- Modelled from the spec: `usb::Descriptor::try_from` needs at least the
two `(length, type)` header bytes of a chunk and otherwise preserves the
bytes. -/
def SpecDescriptor.tryFrom (bytes : List Nat) : PResult SpecDescriptor :=
  if bytes.length < 2 then .error (Error.newDescriptorLen "Descriptor" 2 bytes.length)
  else .ok { bytes := bytes }

/-- The `while taken < extra_len && extra_len >= 2` chunk loop shared by
`build_config_descriptor_extra`, `build_interface_descriptor_extra` and
`build_endpoint_descriptor_extra`: read byte 0 as the chunk length,
`drain(..dt_len)` the chunk (a Rust panic when `dt_len` exceeds the
remaining bytes) and convert it, propagating a conversion failure with
`?`.  The class-context and string-fetch arguments of
`build_descriptor_extra` feed only the external backend capability and do
not affect the chunking. -/
def buildDescriptorExtraLoop (raw : List Nat) (taken extraLen : Nat) :
    PResult (List SpecDescriptor) :=
  if taken < extraLen ∧ 2 ≤ extraLen then
    match readAt raw 0 with
    | .error e => .error e
    | .panic m => .panic m
    | .ok dtLen =>
      if raw.length < dtLen then .panic "drain index out of range"
      else
        match hres : SpecDescriptor.tryFrom (raw.take dtLen) with
        | .error e => .error e
        | .panic m => .panic m
        | .ok dt =>
          match buildDescriptorExtraLoop (raw.drop dtLen) (taken + dtLen) extraLen with
          | .error e => .error e
          | .panic m => .panic m
          | .ok rest => .ok (dt :: rest)
  else .ok []
termination_by extraLen - taken
decreasing_by
  have h2 : ¬ (List.take dtLen raw).length < 2 := by
    intro hlt
    simp only [SpecDescriptor.tryFrom, if_pos hlt] at hres
    exact PResult.noConfusion hres
  rw [List.length_take] at h2
  omega

/-- `ProfilerTrait::build_config_descriptor_extra` (config-level extra
bytes; no class context). -/
def buildConfigDescriptorExtra (raw : List Nat) : PResult (List SpecDescriptor) :=
  buildDescriptorExtraLoop raw 0 raw.length

/-- `ProfilerTrait::build_interface_descriptor_extra` (interface-level
extra bytes; the class context only feeds the typed decode inside
`build_descriptor_extra` and the chunking is identical). -/
def buildInterfaceDescriptorExtra (raw : List Nat) : PResult (List SpecDescriptor) :=
  buildDescriptorExtraLoop raw 0 raw.length

/-! ## Device topology assembler (`profiler.rs`) -/

/-- Modelled from the spec: the device fields the assembler reads — an
identity tag (standing in for the descriptor payload), the bus number and
the port path (`LocationId` bus + port sequence).  `Device` itself lives
in `profiler/types.rs`, outside `src/`. -/
structure DeviceData where
  name : Nat
  bus : Nat
  ports : List Nat
  deriving DecidableEq, Repr

/-- Modelled from the spec: a `Device` owns an optional ordered list of
child devices. -/
inductive Device where
  | mk (data : DeviceData) (devices : Option (List Device))

/-- The data fields of a device. -/
def Device.data : Device → DeviceData
  | .mk d _ => d

/-- The owned children of a device. -/
def Device.devices : Device → Option (List Device)
  | .mk _ ds => ds

/-- Replace the owned children of a device. -/
def Device.withDevices : Device → Option (List Device) → Device
  | .mk d _, ds => .mk d ds

/-- Modelled from the spec: the `Bus` record — optional USB bus number,
host-controller metadata and the owned top-level devices.  `Bus` lives in
`profiler/types.rs`, outside `src/`. -/
structure Bus where
  usb_bus_number : Option Nat
  name : Nat
  host_controller : Nat
  pci_vendor : Option Nat
  pci_device : Option Nat
  pci_revision : Option Nat
  devices : Option (List Device)

/-- Modelled from the spec: `Bus::from(bus_number)` — the default bus
synthesized when no root hub was found for a bus number. -/
def Bus.fromNumber (n : Nat) : Bus :=
  { usb_bus_number := some n, name := 0, host_controller := 0, pci_vendor := none,
    pci_device := none, pci_revision := none, devices := none }

/-- Modelled from the spec: `Bus::get_bus_number`. -/
def Bus.getBusNumber (b : Bus) : Option Nat := b.usb_bus_number

/-- `SystemProfile`: the root of the assembled model. -/
structure SystemProfile where
  buses : List Bus

/-- Stable insertion used by `sortByKey`. -/
def insertByKey {α : Type} (key : α → Nat) (x : α) : List α → List α
  | [] => [x]
  | y :: ys => if key y < key x then y :: insertByKey key x ys else x :: y :: ys

/-- A stable sort by a `Nat` key (`slice::sort_by_key` and
`Itertools::sorted_by_key` are stable). -/
def sortByKey {α : Type} (key : α → Nat) : List α → List α
  | [] => []
  | x :: xs => insertByKey key x (sortByKey key xs)

/-- `Itertools::group_by`: consecutive elements with equal keys form one
group, in input order. -/
def groupByKey {α κ : Type} [DecidableEq κ] (key : α → κ) : List α → List (κ × List α)
  | [] => []
  | x :: xs =>
    match groupByKey key xs with
    | [] => [(key x, [x])]
    | (k, g) :: rest =>
      if key x = k then (k, x :: g) :: rest else (key x, [x]) :: (k, g) :: rest

/-- Modelled from the spec: the grouping key of the `get_spusb` loop —
`d.parent_port_path().unwrap_or(d.trunk_port_path())`, i.e. the device's
port path with the last port removed; an empty parent path means the
device is a direct child of the bus (`is_root_hub`). -/
def parentKey (d : Device) : List Nat := d.data.ports.dropLast

/-- Split a device list around the first device whose port path equals
`cur`. -/
def splitAtMatch (cur : List Nat) : List Device → Option (List Device × Device × List Device)
  | [] => none
  | d :: rest =>
    if d.data.ports = cur then some ([], d, rest)
    else
      match splitAtMatch cur rest with
      | none => none
      | some (pre, m, post) => some (d :: pre, m, post)

/-- Modelled from the spec: `get_node_mut` — locate the tree node at
exactly the given port path and update its `devices` field with `f`,
descending one hub level per path element (the spec's "parent lookup by
path traversal"); reports whether the node was found, leaving the forest
unchanged when it was not. -/
def updateAtPath (f : Option (List Device) → Option (List Device)) :
    List Nat → List Nat → List Device → List Device × Bool
  | _, [], devs => (devs, false)
  | seen, p :: rest, devs =>
    let cur := seen ++ [p]
    match splitAtMatch cur devs with
    | none => (devs, false)
    | some (pre, d, post) =>
      match rest with
      | [] => (pre ++ (d.withDevices (f d.devices)) :: post, true)
      | _ =>
        match updateAtPath f cur rest (d.devices.getD []) with
        | (newKids, true) => (pre ++ (d.withDevices (some newKids)) :: post, true)
        | (_, false) => (devs, false)

/-- One parent-path group of the `get_spusb` insertion loop: a root group
extends the bus's own device list; a non-root group extends the children
of the tree node at the parent path, and `expect`s (a Rust panic) when no
such node exists. -/
def Bus.insertGroup (b : Bus) (parent_path : List Nat) (children : List Device) :
    PResult Bus :=
  if parent_path.isEmpty then
    .ok { b with devices := some (b.devices.getD [] ++ children) }
  else
    match b.devices with
    | none => .panic "Parent node does not exist in new bus!"
    | some devs =>
      match updateAtPath (fun o => some (o.getD [] ++ children)) [] parent_path devs with
      | (devs2, true) => .ok { b with devices := some devs2 }
      | (_, false) => .panic "Parent node does not exist in new bus!"

/-- Fold `insertGroup` over the depth-sorted parent groups of one bus. -/
def Bus.insertGroups (b : Bus) : List (List Nat × List Device) → PResult Bus
  | [] => .ok b
  | (pp, children) :: rest =>
    PResult.bind (b.insertGroup pp children) fun b2 => b2.insertGroups rest

/-- `HashMap::remove` over the association-list model of the bus map. -/
def removeBus : List (Nat × Bus) → Nat → Option Bus × List (Nat × Bus)
  | [], _ => (none, [])
  | (k, b) :: rest, key =>
    if k = key then (some b, rest)
    else
      let r := removeBus rest key
      (r.1, (k, b) :: r.2)

/-- The per-bus-group body of `get_spusb`: take or synthesize a `Bus`,
group the bus's devices by parent path, process the groups in ascending
parent-path depth and collect the assembled buses plus the unused bus-map
entries. -/
def assembleBusGroups : List (Nat × List Device) → List (Nat × Bus) →
    PResult (List Bus × List (Nat × Bus))
  | [], buses => .ok ([], buses)
  | (key, group) :: rest, buses =>
    let r := removeBus buses key
    let new_bus := r.1.getD (Bus.fromNumber key)
    let parent_groups := sortByKey (fun x => x.1.length) (groupByKey parentKey group)
    PResult.bind (new_bus.insertGroups parent_groups) fun b2 =>
      PResult.bind (assembleBusGroups rest r.2) fun s =>
        .ok (b2 :: s.1, s.2)

/-- Sort key used for the final `sort_by_key(|b| b.usb_bus_number)`
(`Option` ordering: `None` before any `Some`). -/
def busNumKey (b : Bus) : Nat :=
  match b.usb_bus_number with
  | none => 0
  | some n => n + 1

/-- `ProfilerTrait::get_spusb`, with the device cache and bus map already
fetched from the backend: sort devices by bus number, group by bus,
assemble each bus group, then append any unused bus-map entries as empty
buses and sort all buses by bus number. -/
def getSpusb (cache : List Device) (buses : List (Nat × Bus)) : PResult SystemProfile :=
  let sorted := sortByKey (fun d => d.data.bus) cache
  let busGroups := groupByKey (fun d => d.data.bus) sorted
  PResult.bind (assembleBusGroups busGroups buses) fun s =>
    if s.2.isEmpty then .ok { buses := s.1 }
    else .ok { buses := sortByKey busNumKey (s.1 ++ s.2.map Prod.snd) }

/-! ## Profile merge (`fill_spusb`) -/

/-- The `iter_mut().find(..)` plus devices assignment of `fill_spusb` for
one freshly enumerated bus: the first existing bus with the same bus
number receives the fresh bus's device subtree; everything else is left
alone. -/
def replaceFirstMatch : List Bus → Bus → List Bus
  | [], _ => []
  | e :: rest, b =>
    if e.getBusNumber = b.getBusNumber then { e with devices := b.devices } :: rest
    else e :: replaceFirstMatch rest b

/-- `ProfilerTrait::fill_spusb`'s merge step: when the passed profile has
any buses, each freshly enumerated bus replaces the device subtree of the
first existing bus with a matching bus number; an empty passed profile is
left untouched. -/
def fillSpusb (spusb : SystemProfile) (fresh : SystemProfile) : SystemProfile :=
  if spusb.buses.isEmpty then spusb
  else { buses := fresh.buses.foldl replaceFirstMatch spusb.buses }

/-! ## Observation helpers and fixtures

These definitions are not part of the embedded program; they only observe
the assembled trees (flattening, permutation enumeration, comparison up to
sibling order) and the bus metadata, so that the claims can be stated. -/

/-- Every field of a `Bus` except its `devices` subtree. -/
def Bus.meta (b : Bus) :
    Option Nat × Nat × Nat × Option Nat × Option Nat × Option Nat :=
  (b.usb_bus_number, b.name, b.host_controller, b.pci_vendor, b.pci_device,
    b.pci_revision)

/-- Depth-first preorder list of `(port path, name)` node entries of a
device forest; `fuel` bounds the descent depth and is exact for any tree
of depth at most `fuel`. -/
def flattenDevices : Nat → List Device → List (List Nat × Nat)
  | 0, _ => []
  | fuel + 1, devs =>
    (devs.map fun d =>
      (d.data.ports, d.data.name) :: flattenDevices fuel (d.devices.getD [])).flatten

/-- All ways to insert `x` into a list. -/
def insertAll {α : Type} (x : α) : List α → List (List α)
  | [] => [[x]]
  | y :: ys => (x :: y :: ys) :: (insertAll x ys).map (fun zs => y :: zs)

/-- All permutations of a list. -/
def perms {α : Type} : List α → List (List α)
  | [] => [[]]
  | x :: xs => ((perms xs).map (insertAll x)).flatten

/-- Do two node-entry lists contain the same entries with the same
multiplicities? -/
def sameNodeMultiset (xs ys : List (List Nat × Nat)) : Bool :=
  xs.length == ys.length && xs.all fun x => xs.count x == ys.count x

/-- Are two assembly outcomes the same tree up to the order of sibling
device lists (same buses in order, and per bus the same multiset of
`(port path, name)` nodes)? -/
def sameUpToSiblingOrder (fuel : Nat) :
    PResult SystemProfile → PResult SystemProfile → Bool
  | .ok sp1, .ok sp2 =>
    sp1.buses.length == sp2.buses.length &&
    (List.zip sp1.buses sp2.buses).all fun bp =>
      bp.1.usb_bus_number == bp.2.usb_bus_number &&
      sameNodeMultiset (flattenDevices fuel (bp.1.devices.getD []))
        (flattenDevices fuel (bp.2.devices.getD []))
  | _, _ => false

/-- Ordered per-bus signature of an assembly outcome: bus number plus the
preorder node list.  Two profiles with different signatures are different
values. -/
def profileSig (fuel : Nat) : PResult SystemProfile →
    Option (List (Option Nat × List (List Nat × Nat)))
  | .ok sp =>
    some (sp.buses.map fun b => (b.usb_bus_number, flattenDevices fuel (b.devices.getD [])))
  | _ => none

/-- Flat-bus fixture: three devices plugged directly into bus 1. -/
def devA : Device := .mk ⟨10, 1, [1]⟩ none

/-- Flat-bus fixture, second device. -/
def devB : Device := .mk ⟨11, 1, [2]⟩ none

/-- Flat-bus fixture, third device. -/
def devC : Device := .mk ⟨12, 1, [3]⟩ none

/-- Hub fixture: the hub at port 1 of bus 1. -/
def hubH : Device := .mk ⟨20, 1, [1]⟩ none

/-- Hub fixture: a leaf child of the hub. -/
def hubA : Device := .mk ⟨21, 1, [1, 1]⟩ none

/-- Hub fixture: a nested hub child of the hub. -/
def hubH2 : Device := .mk ⟨22, 1, [1, 2]⟩ none

/-- Hub fixture: the leaf child of the nested hub (three levels deep). -/
def hubC : Device := .mk ⟨23, 1, [1, 2, 1]⟩ none

/-- The flat fixture in ascending path-depth order. -/
def flatFixture : List Device := [devA, devB, devC]

/-- The hub fixture in ascending path-depth order. -/
def hubFixture : List Device := [hubH, hubA, hubH2, hubC]

/-- The nine-byte Input-Terminal-shaped chunk of the specification's
concrete scenario. -/
def c6Chunk : List Nat := [0x09, 0x04, 0x02, 0x01, 0x00, 0x00, 0x00, 0x00, 0x00]

/-- The full UAC dispatch pipeline on one raw chunk, in class context
`(sub_class, protocol)`: split the chunk into a generic descriptor, then
resolve and decode it as a `UacDescriptor`. -/
def decodeUacChunk (chunk : List Nat) (subc p : Nat) : PResult UacDescriptor :=
  PResult.bind (GenericDescriptor.tryFrom chunk) fun gd => UacDescriptor.tryFrom gd subc p

/-! ## Helper lemmas -/

namespace PResult

@[simp] theorem bind_ok {α β : Type} (a : α) (f : α → PResult β) : bind (ok a) f = f a := rfl

@[simp] theorem bind_error {α β : Type} (e : Error) (f : α → PResult β) :
    bind (error e) f = error e := rfl

@[simp] theorem bind_panic {α β : Type} (m : String) (f : α → PResult β) :
    bind (panic m) f = panic m := rfl

@[simp] theorem map_ok {α β : Type} (f : α → β) (a : α) : map f (ok a) = ok (f a) := rfl

@[simp] theorem map_error {α β : Type} (f : α → β) (e : Error) : map f (error e) = error e := rfl

@[simp] theorem map_panic {α β : Type} (f : α → β) (m : String) : map f (panic m) = panic m := rfl

@[simp] theorem isPanic_ok {α : Type} (a : α) : isPanic (ok a) = false := rfl
@[simp] theorem isPanic_error {α : Type} (e : Error) : isPanic (error (α := α) e) = false := rfl
@[simp] theorem isPanic_panic {α : Type} (m : String) : isPanic (panic (α := α) m) = true := rfl
@[simp] theorem isError_ok {α : Type} (a : α) : isError (ok a) = false := rfl
@[simp] theorem isError_error {α : Type} (e : Error) : isError (error (α := α) e) = true := rfl
@[simp] theorem isError_panic {α : Type} (m : String) : isError (panic (α := α) m) = false := rfl

end PResult

theorem readAt_eq_ok {value : List Nat} {i : Nat} (h : i < value.length) :
    readAt value i = .ok (value.getD i 0) := by
  unfold readAt
  rcases hg : value.get? i with _ | b
  · exact absurd (List.get?_eq_none.mp hg) (by omega)
  · simp [List.getD, ← List.get?_eq_getElem?, hg]

theorem readAt_eq_panic {value : List Nat} {i : Nat} (h : value.length ≤ i) :
    readAt value i = .panic "index out of bounds" := by
  unfold readAt
  rw [List.get?_eq_none.mpr h]

theorem sliceRange_eq_ok {value : List Nat} {a b : Nat} (h1 : a ≤ b) (h2 : b ≤ value.length) :
    sliceRange value a b = .ok ((value.drop a).take (b - a)) := by
  unfold sliceRange
  rw [if_pos ⟨h1, h2⟩]

theorem sliceFrom_eq_ok {value : List Nat} {a : Nat} (h : a ≤ value.length) :
    sliceFrom value a = .ok (value.drop a) := by
  unfold sliceFrom
  rw [if_pos h]

theorem outputJack_short {v : List Nat} (h : v.length < 4) :
    (OutputJack.tryFrom v).isError = true := by
  unfold OutputJack.tryFrom
  rw [if_pos h]
  rfl

theorem outputJack_no_panic (v : List Nat) : (OutputJack.tryFrom v).isPanic = false := by
  unfold OutputJack.tryFrom
  split
  · rfl
  · rename_i h4
    rw [readAt_eq_ok (by omega)]
    simp only [PResult.bind_ok]
    split
    · rfl
    · rename_i hvar
      rw [sliceRange_eq_ok (by omega) (by omega)]
      simp only [PResult.bind_ok]
      rw [readAt_eq_ok (by omega), readAt_eq_ok (by omega), readAt_eq_ok (by omega)]
      rfl

theorem capsLoop_ok (v : List Nat) (base : Nat) :
    ∀ (n i acc : Nat), base + i + n ≤ v.length →
      ∃ r, Element.capsLoop v base n i acc = .ok r := by
  intro n
  induction n with
  | zero => intro i acc _; exact ⟨acc, rfl⟩
  | succ m ih =>
    intro i acc h
    unfold Element.capsLoop
    rw [readAt_eq_ok (by omega)]
    simp only [PResult.bind_ok]
    exact ih (i + 1) _ (by omega)

theorem element_short {v : List Nat} (h : v.length < 8) :
    (Element.tryFrom v).isError = true := by
  unfold Element.tryFrom
  rw [if_pos h]
  rfl

theorem element_no_panic (v : List Nat) : (Element.tryFrom v).isPanic = false := by
  unfold Element.tryFrom
  split
  · rfl
  · rename_i h8
    rw [readAt_eq_ok (by omega), readAt_eq_ok (by omega)]
    simp only [PResult.bind_ok]
    split
    · rfl
    · rename_i hexp
      rw [sliceRange_eq_ok (by omega) (by omega)]
      simp only [PResult.bind_ok]
      rw [readAt_eq_ok (by omega), readAt_eq_ok (by omega), readAt_eq_ok (by omega),
        readAt_eq_ok (by omega)]
      simp only [PResult.bind_ok]
      split
      · rfl
      · rename_i hcaps
        obtain ⟨r, hr⟩ := capsLoop_ok v (2 + v.getD 1 0 * 2 + 4)
          (v.getD (2 + v.getD 1 0 * 2 + 3) 0) 0 0 (by omega)
        rw [hr]
        simp only [PResult.bind_ok]
        rw [readAt_eq_ok (by omega)]
        rfl

theorem replaceFirstMatch_map_meta (l : List Bus) (b : Bus) :
    (replaceFirstMatch l b).map Bus.meta = l.map Bus.meta := by
  induction l with
  | nil => rfl
  | cons e rest ih =>
    unfold replaceFirstMatch
    split
    · simp [Bus.meta]
    · simp [ih]

theorem foldl_replace_map_meta (fs : List Bus) :
    ∀ l : List Bus, (fs.foldl replaceFirstMatch l).map Bus.meta = l.map Bus.meta := by
  induction fs with
  | nil => intro l; rfl
  | cons f rest ih =>
    intro l
    simp only [List.foldl_cons]
    rw [ih, replaceFirstMatch_map_meta]

theorem foldl_replace_map_num (fs : List Bus) :
    ∀ l : List Bus,
      (fs.foldl replaceFirstMatch l).map Bus.getBusNumber = l.map Bus.getBusNumber := by
  induction fs with
  | nil => intro l; rfl
  | cons f rest ih =>
    intro l
    simp only [List.foldl_cons]
    rw [ih]
    clear ih
    induction l with
    | nil => rfl
    | cons e r2 ih2 =>
      unfold replaceFirstMatch
      split
      · simp [Bus.getBusNumber]
      · simp [ih2]

theorem replaceFirstMatch_get_of_ne (l : List Bus) (b : Bus) (i : Nat) (bb : Bus)
    (hg : l.get? i = some bb) (hne : bb.getBusNumber ≠ b.getBusNumber) :
    (replaceFirstMatch l b).get? i = some bb := by
  induction l generalizing i with
  | nil => simp at hg
  | cons e rest ih =>
    unfold replaceFirstMatch
    split
    · rename_i heq
      cases i with
      | zero =>
        simp only [List.get?_cons_zero, Option.some_inj] at hg
        subst hg
        exact absurd heq hne
      | succ k => simpa using hg
    · cases i with
      | zero => simpa using hg
      | succ k =>
        simp only [List.get?_cons_succ] at hg ⊢
        exact ih k hg

theorem foldl_replace_get_of_ne (fs : List Bus) :
    ∀ (l : List Bus) (i : Nat) (bb : Bus), l.get? i = some bb →
      (∀ fb ∈ fs, fb.getBusNumber ≠ bb.getBusNumber) →
      (fs.foldl replaceFirstMatch l).get? i = some bb := by
  induction fs with
  | nil => intro l i bb hg _; exact hg
  | cons f rest ih =>
    intro l i bb hg hne
    simp only [List.foldl_cons]
    refine ih _ i bb ?_ (fun fb hfb => hne fb (by simp [hfb]))
    exact replaceFirstMatch_get_of_ne l f i bb hg (fun h => hne f (by simp) h.symm)

theorem replaceFirstMatch_get_first (l : List Bus) (b : Bus) :
    ∀ (i : Nat) (bb : Bus), l.get? i = some bb →
      bb.getBusNumber = b.getBusNumber →
      (∀ j bj, j < i → l.get? j = some bj → bj.getBusNumber ≠ b.getBusNumber) →
      (replaceFirstMatch l b).get? i = some { bb with devices := b.devices } := by
  induction l with
  | nil => intro i bb hg _ _; simp at hg
  | cons e rest ih =>
    intro i bb hg heq hfirst
    unfold replaceFirstMatch
    cases i with
    | zero =>
      simp only [List.get?_cons_zero, Option.some_inj] at hg
      subst hg
      rw [if_pos heq]
      rfl
    | succ k =>
      have hne : e.getBusNumber ≠ b.getBusNumber := hfirst 0 e (by omega) rfl
      rw [if_neg hne]
      simp only [List.get?_cons_succ] at hg ⊢
      exact ih k bb hg heq
        (fun j bj hj hgj => hfirst (j + 1) bj (by omega) (by simpa using hgj))

/-! ## Claims -/

/-- C1 (counterexample): the claim that `encode(decode(bytes)) == bytes`
for **every** byte slice that successfully decodes is false: the ten-byte
all-zero slice decodes successfully as an `InputTerminal1`, but
re-encoding it yields only the nine zero bytes, not the original slice. -/
theorem c1_overlong_slice_breaks_encode_decode :
    (InputTerminal1.tryFrom (List.replicate 10 0)).isOk = true
    ∧ PResult.map InputTerminal1.into (InputTerminal1.tryFrom (List.replicate 10 0)) ≠
        .ok (List.replicate 10 0) := by
  decide

/-- C1 (amended): for `InputTerminal1`, `decode(encode(x)) = x` for every
structurally valid value `x` (string-resolution fields unset, multi-byte
fields within their wire width), and `encode(decode(bytes)) = bytes` for
every byte slice of exactly the descriptor's nine-byte wire length that
successfully decodes; longer slices decode by ignoring the trailing bytes,
which re-encoding drops. -/
theorem c1_inputTerminal1_roundtrip_exact :
    (∀ x : InputTerminal1, x.channel_names = none → x.terminal = none →
      x.terminal_type < 65536 → x.channel_config < 65536 →
      InputTerminal1.tryFrom x.into = .ok x)
    ∧ (∀ bs : List Nat, bs.length = 9 → (∀ b ∈ bs, b < 256) →
      ∀ y : InputTerminal1, InputTerminal1.tryFrom bs = .ok y → y.into = bs) := by
  constructor
  · intro x hcn ht h1 h2
    obtain ⟨tid, tt, assoc, nr, cc, cni, cn, ti, t⟩ := x
    simp only at hcn ht h1 h2
    subst hcn ht
    simp only [InputTerminal1.into, InputTerminal1.tryFrom, toLe16, readAt, readWordLe,
      List.get?, List.length, PResult.bind_ok, u16le]
    norm_num
    omega
  · intro bs hlen hb y hy
    match bs, hlen with
    | [b0, b1, b2, b3, b4, b5, b6, b7, b8], _ =>
      have h1 : b1 < 256 := hb _ (by simp)
      have h2 : b2 < 256 := hb _ (by simp)
      have h5 : b5 < 256 := hb _ (by simp)
      have h6 : b6 < 256 := hb _ (by simp)
      simp only [InputTerminal1.tryFrom, readAt, readWordLe, List.get?, List.length,
        PResult.bind_ok] at hy
      norm_num at hy
      rw [← hy]
      simp only [InputTerminal1.into, toLe16]
      norm_num
      omega

/-- C1 (witness): the amended round trip at the concrete value
`InputTerminal1 2 256 0 0 0 0 none 0 none` and at the nine-zero slice. -/
theorem c1_inputTerminal1_roundtrip_exact_witness :
    InputTerminal1.tryFrom
        (InputTerminal1.into ⟨2, 256, 0, 0, 0, 0, none, 0, none⟩) =
      .ok ⟨2, 256, 0, 0, 0, 0, none, 0, none⟩
    ∧ InputTerminal1.into ⟨0, 0, 0, 0, 0, 0, none, 0, none⟩ = List.replicate 9 0 := by
  refine ⟨c1_inputTerminal1_roundtrip_exact.1 _ rfl rfl (by decide) (by decide), ?_⟩
  exact c1_inputTerminal1_roundtrip_exact.2 (List.replicate 9 0) (by decide)
    (by decide) ⟨0, 0, 0, 0, 0, 0, none, 0, none⟩ (by decide)

/-- C2 (counterexample): the Audio Control remap does **not** resolve
subtype byte `0x06` to Selector Unit under the UAC1 (`0x00`) or UAC2
(`0x20`) protocol tags — it resolves it to Feature Unit under both. -/
theorem c2_subtype_0x06_not_selector_unit :
    ControlSubtype.getUacSubtype 0x06 0x00 ≠ ControlSubtype.SelectorUnit
    ∧ ControlSubtype.getUacSubtype 0x06 0x20 ≠ ControlSubtype.SelectorUnit := by
  decide

/-- C2 (amended): the Audio Control subtype remap resolves subtype byte
`0x06` to Feature Unit under both the UAC1 tag (`0x00`) and the UAC2 tag
(`0x20`) (it is `0x05` that resolves to Selector Unit under both), and
resolves `0x04` to Mixer Unit under UAC1 and UAC2 but to a different
concrete subtype — Extended Terminal — under UAC3 (`0x30`), where no
remap is applied. -/
theorem c2_remap_amended :
    ControlSubtype.getUacSubtype 0x06 0x00 = ControlSubtype.FeatureUnit
    ∧ ControlSubtype.getUacSubtype 0x06 0x20 = ControlSubtype.FeatureUnit
    ∧ ControlSubtype.getUacSubtype 0x05 0x00 = ControlSubtype.SelectorUnit
    ∧ ControlSubtype.getUacSubtype 0x05 0x20 = ControlSubtype.SelectorUnit
    ∧ ControlSubtype.getUacSubtype 0x04 0x00 = ControlSubtype.MixerUnit
    ∧ ControlSubtype.getUacSubtype 0x04 0x20 = ControlSubtype.MixerUnit
    ∧ ControlSubtype.getUacSubtype 0x04 0x30 = ControlSubtype.ExtendedTerminal
    ∧ ControlSubtype.ExtendedTerminal ≠ ControlSubtype.MixerUnit := by
  decide

/-- C3 (counterexample): on a pathological input (one device at port path
`1-2` with no device at its parent path `1`), topology assembly does not
report an explicit error outcome — it panics (the `expect` on the missing
parent node), refuting the claim that it "does not panic". -/
theorem c3_missing_parent_panics_concrete :
    getSpusb [Device.mk ⟨0, 1, [1, 2]⟩ none] [] =
      .panic "Parent node does not exist in new bus!" := rfl

/-- C3 (amended): when a non-root parent-path group has no tree node at
its parent path, assembly panics (`expect`) rather than returning an
error outcome; in particular no partial `SystemProfile` is returned. -/
theorem c3_missing_parent_panics (nm b p q : Nat) :
    getSpusb [Device.mk ⟨nm, b, [p, q]⟩ none] [] =
      .panic "Parent node does not exist in new bus!" := rfl

/-- C4: the chunked extra-descriptor reader does not stop gracefully when
the chunk length byte exceeds the remaining bytes: on the two-byte buffer
`[0xFF, 0x01]` both the config-level and the interface-level readers
reach `raw.drain(..255)` and panic instead of reporting the unconsumed
bytes. -/
theorem c4_chunk_length_overrun_panics :
    buildConfigDescriptorExtra [0xFF, 0x01] = .panic "drain index out of range"
    ∧ buildInterfaceDescriptorExtra [0xFF, 0x01] = .panic "drain index out of range" := by
  constructor
  · unfold buildConfigDescriptorExtra buildDescriptorExtraLoop
    decide
  · unfold buildInterfaceDescriptorExtra buildDescriptorExtraLoop
    decide

/-- C5: truncation safety holds for the cited variable-length decoders —
`Element` and `OutputJack` never panic on any input and report
length-mismatch errors on short input — but it does not hold for every
typed audio descriptor decoder: `ProcessingUnit1` (via the
`AudioProcessingUnitExtended1` mode list, whose loop reads `value[i + 1]`
unchecked) panics on the fourteen-byte input
`[0, 1, 0, 0, 0, 0, 0, 0, 0, 0, 0, 0, 0, 0]`. -/
theorem c5_truncation_safety_and_processing_unit_panic :
    (∀ v : List Nat, (Element.tryFrom v).isPanic = false)
    ∧ (∀ v : List Nat, v.length < 8 → (Element.tryFrom v).isError = true)
    ∧ (∀ v : List Nat, (OutputJack.tryFrom v).isPanic = false)
    ∧ (∀ v : List Nat, v.length < 4 → (OutputJack.tryFrom v).isError = true)
    ∧ ProcessingUnit1.tryFrom [0, 1, 0, 0, 0, 0, 0, 0, 0, 0, 0, 0, 0, 0] =
        .panic "index out of bounds" := by
  refine ⟨element_no_panic, fun v h => element_short h, outputJack_no_panic,
    fun v h => outputJack_short h, by decide⟩

/-- C5 (witness): the truncation-safety parts instantiated at the empty
slice. -/
theorem c5_truncation_safety_witness :
    (Element.tryFrom []).isPanic = false ∧ (Element.tryFrom []).isError = true
    ∧ (OutputJack.tryFrom []).isPanic = false
    ∧ (OutputJack.tryFrom []).isError = true := by
  obtain ⟨h1, h2, h3, h4, _⟩ := c5_truncation_safety_and_processing_unit_panic
  exact ⟨h1 [], h2 [] (by decide), h3 [], h4 [] (by decide)⟩

/-- C6 (counterexample): the nine-byte chunk
`[0x09, 0x04, 0x02, 0x01, 0, 0, 0, 0, 0]` under UAC1 audio-control
context does **not** decode to the claimed `InputTerminal1` value: its
payload after the three header bytes is six bytes, shorter than the nine
`InputTerminal1` requires, so the dispatch yields the
`Invalid [1, 0, 0, 0, 0, 0]` fallback. -/
theorem c6_nine_byte_chunk_not_input_terminal :
    decodeUacChunk c6Chunk 1 0 =
      .ok ⟨9, 4, .Control .InputTerminal, .Invalid [1, 0, 0, 0, 0, 0]⟩
    ∧ UacInterfaceDescriptor.Invalid [1, 0, 0, 0, 0, 0] ≠
        UacInterfaceDescriptor.InputTerminal1
          ⟨2, 256, 0, 0, 0, 0, none, 0, none⟩ := by
  decide

/-- C6 (amended): the nine-byte chunk
`[0x09, 0x04, 0x02, 0x01, 0, 0, 0, 0, 0]` under UAC1 audio-control
context resolves its subtype byte `0x02` to Input Terminal, but the
six-byte payload fails the `InputTerminal1` length check and the chunk
decodes to the `Invalid` fallback carrying the payload verbatim;
re-encoding the decoded descriptor reproduces the original nine bytes
exactly. -/
theorem c6_nine_byte_chunk_invalid_and_reencodes :
    decodeUacChunk c6Chunk 1 0 =
      .ok ⟨9, 4, .Control .InputTerminal, .Invalid [1, 0, 0, 0, 0, 0]⟩
    ∧ PResult.map UacDescriptor.into (decodeUacChunk c6Chunk 1 0) = .ok c6Chunk := by
  decide

/-- C7 (counterexample): topology assembly is not order-independent as
stated: assembling the permutation `[devB, devA, devC]` of the flat
three-device fixture yields a different `SystemProfile` value (the bus's
device list keeps the input order) than assembling the depth-grouped list
`[devA, devB, devC]`. -/
theorem c7_permutation_changes_profile :
    getSpusb [devB, devA, devC] [] ≠ getSpusb flatFixture [] := by
  intro h
  exact absurd (congrArg (profileSig 9) h) (by decide)

set_option maxRecDepth 40000 in
/-- C7 (amended): assembling any permutation of the flat three-device
fixture or of the three-level hub fixture yields the same tree as the
depth-grouped assembly **up to the order of sibling device lists** (same
buses, and per bus the same multiset of `(port path, device)` nodes); the
exact `SystemProfile` value depends on the input order of siblings. -/
theorem c7_permutation_same_up_to_sibling_order :
    (∀ p ∈ perms flatFixture,
      sameUpToSiblingOrder 9 (getSpusb p []) (getSpusb flatFixture []) = true)
    ∧ (∀ p ∈ perms hubFixture,
      sameUpToSiblingOrder 9 (getSpusb p []) (getSpusb hubFixture []) = true) := by
  decide

/-- C7 (witness): the amended statement at the identity permutations of
the two fixtures. -/
theorem c7_permutation_same_up_to_sibling_order_witness :
    sameUpToSiblingOrder 9 (getSpusb flatFixture []) (getSpusb flatFixture []) = true
    ∧ sameUpToSiblingOrder 9 (getSpusb hubFixture []) (getSpusb hubFixture []) = true :=
  ⟨c7_permutation_same_up_to_sibling_order.1 flatFixture (List.Mem.head _),
    c7_permutation_same_up_to_sibling_order.2 hubFixture (List.Mem.head _)⟩

/-- C8: for every generic descriptor carrying payload data, the UAC
class-context dispatch never propagates a parse error: the outcome is
never an error; when the typed decoder of a recognised combination fails,
the result is the `Invalid` descriptor carrying the raw payload; and a
recognised subtype with no decoder for any protocol (`Connectors`) yields
the `Generic` descriptor carrying the raw payload. -/
theorem c8_dispatch_never_propagates_error :
    ∀ (t : UacType) (p : Nat) (data : List Nat) (len dt ds : Nat),
      ((t.uacDescriptorFromGeneric ⟨len, dt, ds, some data⟩ p).isError = false)
      ∧ (∀ e, t.getUacDescriptor p data = .error e →
          t.uacDescriptorFromGeneric ⟨len, dt, ds, some data⟩ p = .ok (.Invalid data))
      ∧ (∀ pr : UacProtocol,
          UacInterfaceDescriptor.fromUacAcInterface .Connectors pr data =
            .ok (.Generic data)) := by
  intro t p data len dt ds
  refine ⟨?_, ?_, ?_⟩
  · unfold UacType.uacDescriptorFromGeneric
    cases h : t.getUacDescriptor p data <;> simp [h]
  · intro e he
    simp [UacType.uacDescriptorFromGeneric, he]
  · intro pr
    rfl

/-- C8 (witness): the Input Terminal decoder fails its length check on an
empty payload and the dispatch yields `Invalid []`; the `Connectors`
subtype under UAC1 yields `Generic []`. -/
theorem c8_dispatch_never_propagates_error_witness :
    UacType.uacDescriptorFromGeneric (.Control .InputTerminal) ⟨9, 4, 2, some []⟩ 0 =
      .ok (.Invalid [])
    ∧ UacInterfaceDescriptor.fromUacAcInterface .Connectors .Uac1 [] =
        .ok (.Generic []) := by
  obtain ⟨_, h2, h3⟩ :=
    c8_dispatch_never_propagates_error (.Control .InputTerminal) 0 [] 9 4 2
  exact ⟨h2 (Error.newDescriptorLen "InputTerminal1" 9 0) rfl, h3 .Uac1⟩

/-- C9: for every existing profile with at least one bus and every fresh
enumeration, the merge replaces only the `devices` field of existing
buses whose bus number matches a fresh bus: all other fields of every
existing bus are unchanged (the `Bus.meta` projection is preserved
index-wise), buses matching no fresh bus keep even their devices, and for
a single fresh bus the first matching existing bus receives exactly the
fresh device subtree. -/
theorem c9_merge_replaces_only_matched_devices (existing fresh : SystemProfile)
    (hne : existing.buses ≠ []) :
    ((fillSpusb existing fresh).buses.map Bus.meta = existing.buses.map Bus.meta)
    ∧ (∀ (i : Nat) (bb : Bus), existing.buses.get? i = some bb →
        (∀ fb ∈ fresh.buses, fb.getBusNumber ≠ bb.getBusNumber) →
        (fillSpusb existing fresh).buses.get? i = some bb)
    ∧ (∀ fb : Bus, fresh.buses = [fb] →
        ∀ (i : Nat) (bb : Bus), existing.buses.get? i = some bb →
        bb.getBusNumber = fb.getBusNumber →
        (∀ j bj, j < i → existing.buses.get? j = some bj →
          bj.getBusNumber ≠ fb.getBusNumber) →
        (fillSpusb existing fresh).buses.get? i =
          some { bb with devices := fb.devices }) := by
  have hemp : existing.buses.isEmpty = false := by
    cases h : existing.buses with
    | nil => exact absurd h hne
    | cons a l => rfl
  refine ⟨?_, ?_, ?_⟩
  · unfold fillSpusb
    rw [if_neg (by simp [hemp])]
    exact foldl_replace_map_meta fresh.buses existing.buses
  · intro i bb hg hne2
    unfold fillSpusb
    rw [if_neg (by simp [hemp])]
    exact foldl_replace_get_of_ne fresh.buses existing.buses i bb hg hne2
  · intro fb hfb i bb hg heq hfirst
    unfold fillSpusb
    rw [if_neg (by simp [hemp])]
    rw [hfb]
    simp only [List.foldl_cons, List.foldl_nil]
    exact replaceFirstMatch_get_first existing.buses fb i bb hg heq hfirst

/-- C9 (witness): merging a fresh bus 2 into an existing profile holding
only bus 1 leaves the existing bus — metadata and devices — unchanged. -/
theorem c9_merge_replaces_only_matched_devices_witness :
    (fillSpusb ⟨[Bus.fromNumber 1]⟩ ⟨[Bus.fromNumber 2]⟩).buses.map Bus.meta =
      [Bus.fromNumber 1].map Bus.meta
    ∧ (fillSpusb ⟨[Bus.fromNumber 1]⟩ ⟨[Bus.fromNumber 2]⟩).buses.get? 0 =
        some (Bus.fromNumber 1) := by
  obtain ⟨h1, h2, _⟩ := c9_merge_replaces_only_matched_devices
    ⟨[Bus.fromNumber 1]⟩ ⟨[Bus.fromNumber 2]⟩ (by simp)
  refine ⟨h1, h2 0 (Bus.fromNumber 1) rfl ?_⟩
  intro fb hfb
  simp only [List.mem_singleton] at hfb
  subst hfb
  simp [Bus.fromNumber, Bus.getBusNumber]

/-- C10: the merge never changes which buses the existing profile
contains — the bus-number list (and hence the bus count) is exactly that
of the existing profile, no fresh bus is added and no existing bus is
removed; merging into a profile with an empty bus list returns it
untouched, silently discarding the entire fresh enumeration. -/
theorem c10_merge_preserves_bus_set (existing fresh : SystemProfile) :
    ((fillSpusb existing fresh).buses.map Bus.getBusNumber =
      existing.buses.map Bus.getBusNumber)
    ∧ ((fillSpusb existing fresh).buses.length = existing.buses.length)
    ∧ (existing.buses = [] → fillSpusb existing fresh = existing) := by
  have hmap : (fillSpusb existing fresh).buses.map Bus.getBusNumber =
      existing.buses.map Bus.getBusNumber := by
    unfold fillSpusb
    split
    · rfl
    · exact foldl_replace_map_num fresh.buses existing.buses
  refine ⟨hmap, ?_, ?_⟩
  · have := congrArg List.length hmap
    simpa using this
  · intro h
    unfold fillSpusb
    rw [if_pos (by simp [h])]

/-- C10 (witness): merging a fresh enumeration into an empty profile
leaves it empty. -/
theorem c10_merge_preserves_bus_set_witness :
    fillSpusb ⟨[]⟩ ⟨[Bus.fromNumber 2]⟩ = ⟨[]⟩ :=
  (c10_merge_preserves_bus_set ⟨[]⟩ ⟨[Bus.fromNumber 2]⟩).2.2 rfl

end Cyme
